import Mathlib

/-!
# KWin: Xwayland supervisor, X selection data bridge and input panel window

Shallow embedding of `xwl/xwayland.cpp`, `xwl/databridge.cpp` and
`inputpanelv1client.cpp`.

* Objects reached through pointers are `Option` values (`none` is `nullptr`).
* Every member function becomes a function from the state before the call to
  the state after it together with the trace of the effects it performed, each
  effect paired with the state in which it was performed.
* Results of system calls and of library calls (pipe, socketpair, dup,
  xcb_connect_to_fd, QProcess::waitForFinished, the selection channels) are
  inputs of the functions.
* Diagnostic output (std::cerr, std::cout, qCWarning, qCDebug) is not traced.
* The destruction of a local object when its function returns is traced where it
  acts on something outside the function: the `KSelectionOwner` of
  `continueStartupWithX`.
* Values of type `int` in `inputpanelv1client.cpp` are integers in the 32-bit range,
  and every `int` computation wraps around at 32 bits.
-/

namespace Xwl

/-! ## Plain data -/

/-- Byte strings, one `Char` per byte. -/
abbrev QByteArray := List Char

/-- The member `QByteArray::remove(pos, len)`: nothing happens when `len` is not
positive or `pos` is out of range. -/
def QByteArray.remove (b : QByteArray) (pos len : Int) : QByteArray :=
  if len ≤ 0 ∨ pos < 0 ∨ (b.length : Int) ≤ pos then b
  else b.take pos.toNat ++ b.drop (pos.toNat + len.toNat)

/-- The member `QByteArray::constData()` read as a C string: the bytes up to the
first NUL byte. -/
def QByteArray.constData (b : QByteArray) : QByteArray :=
  b.takeWhile (fun c => c != Char.ofNat 0)

/-- The static `QString::fromUtf8`, on the ASCII range. -/
def QString.fromUtf8 (b : QByteArray) : String :=
  String.mk b

structure QPoint where
  x : Int
  y : Int
deriving DecidableEq

/-- A window handed to the drag filter (`Toplevel *`); only its identity matters. -/
structure Toplevel where
  id : Nat
deriving DecidableEq

/-- A raw X11 event as returned by `xcb_poll_for_event`. -/
structure xcb_generic_event_t where
  response_type : Nat
  sequence : Nat
deriving DecidableEq

structure xcb_screen_t where
  root : Nat
deriving DecidableEq

/-- A connection object as `xcb_connect_to_fd` returns it: its file descriptor, the
first screen read from its setup, and its error state (`xcb_connection_has_error`), 0
for an open connection. The object returned when the connect fails is in an error
state; `createX11Connection` tests the object against null only and does not read its
error state. -/
structure xcb_connection_t where
  fd : Int
  screen : xcb_screen_t
  has_error : Int := 0
deriving DecidableEq

def XCB_WINDOW_NONE : Nat := 0

def XCB_INPUT_FOCUS_POINTER_ROOT : Nat := 1

/-- The interned atoms the bridge reads through the global `atoms` pointer. -/
structure Atoms where
  clipboard : Nat
  xdnd_selection : Nat
deriving DecidableEq

/-- Modelled from the spec: the reply tag of the drag filter. Its enum declaration
(`xwayland_interface.h`) is not among the sources; the spec gives it three values,
NotHandled, NativeSideHandled and LegacySideHandled. The sources name one of them,
`DragEventReply::Wayland`, the native (Wayland) side value. -/
inductive DragEventReply
  | NotHandled
  | Wayland
  | LegacySideHandled
deriving DecidableEq

/-! ## databridge.cpp -/

/-- The clipboard channel, `new Clipboard(atoms->clipboard, this)`. -/
structure Clipboard where
  atom : Option Nat
deriving DecidableEq

/-- The drag-and-drop channel, `new Dnd(atoms->xdnd_selection, this)`. -/
structure Dnd where
  atom : Option Nat
deriving DecidableEq

/-- A server-side data device, with the client connection it belongs to. -/
structure DataDeviceInterface where
  id : Nat
  client : Nat
deriving DecidableEq

/-- The client-side data device obtained from `getDataDevice(seat, this)`. -/
structure DataDevice where
  seat : Nat
deriving DecidableEq

/-- What `waylandServer()` answers to the bridge. -/
structure WaylandServer where
  internalConnection : Nat
  internalSeat : Nat
deriving DecidableEq

/-- The members of `DataBridge`; `dc` tells whether the `dataDeviceCreated`
connection made in the constructor is still in place. -/
structure DataBridge where
  m_clipboard : Option Clipboard
  m_dnd : Option Dnd
  m_dataDevice : Option DataDevice
  m_dataDeviceInterface : Option DataDeviceInterface
  dc : Bool
deriving DecidableEq

/-- The behaviour of the two selection channels (`clipboard.cpp`, `dnd.cpp`,
`selection.cpp`), which the bridge only calls. -/
structure Channels where
  clipboardFilterEvent : Clipboard → xcb_generic_event_t → Bool
  dndFilterEvent : Dnd → xcb_generic_event_t → Bool
  dndDragMoveFilter : Dnd → Option Toplevel → QPoint → DragEventReply

/-- A call the bridge makes into one of its channels. -/
inductive ChannelCall
  | clipboardFilterEvent (c : Clipboard) (event : xcb_generic_event_t)
  | dndFilterEvent (d : Dnd) (event : xcb_generic_event_t)
  | dndDragMoveFilter (d : Dnd) (target : Option Toplevel) (pos : QPoint)
deriving DecidableEq

/-- The function `DataBridge::init`. The global `atoms` pointer is read as it is. -/
def DataBridge.init (atoms : Option Atoms) (b : DataBridge) : DataBridge :=
  { b with
    m_clipboard := some { atom := atoms.map Atoms.clipboard }
    m_dnd := some { atom := atoms.map Atoms.xdnd_selection } }

/-- The lambda connected to `dataDeviceCreated` in the constructor. It is not
invoked any more once the connection `dc` has been disconnected. -/
def DataBridge.dataDeviceCreated (server : WaylandServer) (atoms : Option Atoms)
    (b : DataBridge) (dataDeviceInterface : DataDeviceInterface) : DataBridge :=
  if b.dc = false then b
  else if b.m_dataDeviceInterface.isSome then b
  else if dataDeviceInterface.client ≠ server.internalConnection then b
  else DataBridge.init atoms
    { b with dc := false, m_dataDeviceInterface := some dataDeviceInterface }

/-- The constructor `DataBridge::DataBridge`; `published` are the data devices
announced while the constructor dispatches the Wayland server. -/
def DataBridge.new (server : WaylandServer) (atoms : Option Atoms)
    (published : List DataDeviceInterface) : DataBridge :=
  published.foldl (DataBridge.dataDeviceCreated server atoms)
    { m_clipboard := none
      m_dnd := none
      m_dataDevice := some { seat := server.internalSeat }
      m_dataDeviceInterface := none
      dc := true }

/-- The function `DataBridge::filterEvent`, with the calls made into the channels. -/
def DataBridge.filterEvent (ch : Channels) (b : DataBridge) (event : xcb_generic_event_t) :
    Bool × List ChannelCall :=
  let first : Bool × List ChannelCall :=
    match b.m_clipboard with
    | some c => (ch.clipboardFilterEvent c event, [ChannelCall.clipboardFilterEvent c event])
    | none => (false, [])
  if first.1 then (true, first.2)
  else
    let second : Bool × List ChannelCall :=
      match b.m_dnd with
      | some d => (ch.dndFilterEvent d event, [ChannelCall.dndFilterEvent d event])
      | none => (false, [])
    if second.1 then (true, first.2 ++ second.2)
    else (false, first.2 ++ second.2)

/-- The function `DataBridge::dragMoveFilter`, with the calls made into the channels. -/
def DataBridge.dragMoveFilter (ch : Channels) (b : DataBridge) (target : Option Toplevel)
    (pos : QPoint) : DragEventReply × List ChannelCall :=
  match b.m_dnd with
  | none => (DragEventReply.Wayland, [])
  | some d => (ch.dndDragMoveFilter d target pos, [ChannelCall.dndDragMoveFilter d target pos])

/-! ## xwayland.cpp: state -/

inductive ProcessState
  | NotRunning
  | Starting
  | Running
deriving DecidableEq

inductive ProcessError
  | FailedToStart
  | Crashed
  | Timedout
  | WriteError
  | ReadError
  | UnknownError
deriving DecidableEq

abbrev QProcessEnvironment := List (String × String)

/-- The member `QProcessEnvironment::insert`: sets the variable, replacing an
earlier value. -/
def QProcessEnvironment.insert (env : QProcessEnvironment) (name value : String) :
    QProcessEnvironment :=
  env.filter (fun p => p.1 != name) ++ [(name, value)]

/-- The helper process object (`Process`, a `QProcess`). `connected` tells whether
its errorOccurred, started and finished signals are connected to the supervisor. -/
structure Process where
  state : ProcessState
  connected : Bool
  forwardedErrorChannel : Bool
  program : String
  environment : QProcessEnvironment
  arguments : List String
deriving DecidableEq

/-- The part of the application object (`m_app`, `kwinApp()`) used here. -/
structure Application where
  x11Connection : Option xcb_connection_t
  x11DefaultScreen : Option xcb_screen_t
  x11ScreenNumber : Int
  x11RootWindow : Nat
  atoms : Option Atoms
  nativeX11EventFilter : Bool
  processStartupEnvironment : QProcessEnvironment
deriving DecidableEq

/-- The supervisor `Xwayland` with the objects it acts on: its members, the
application, the two dispatcher hooks connected to `dispatchEvents`, the
compositor-side Xwayland connection of the Wayland server, the pending
display-number reads (one `QFutureWatcher` each, with the descriptor read) and
the `DISPLAY` variable of the process environment. -/
structure Xwayland where
  m_xcbConnectionFd : Int
  m_displayFileDescriptor : Int
  m_xwaylandProcess : Option Process
  m_socketNotifier : Option Int
  m_dataBridge : Option DataBridge
  m_app : Application
  aboutToBlock : Bool
  awake : Bool
  xwaylandConnection : Bool
  futureWatchers : List Int
  DISPLAY : Option QByteArray
deriving DecidableEq

/-- The supervisor right after construction, in a Wayland session without X11. -/
def Xwayland.initial : Xwayland :=
  { m_xcbConnectionFd := -1
    m_displayFileDescriptor := -1
    m_xwaylandProcess := none
    m_socketNotifier := none
    m_dataBridge := none
    m_app :=
      { x11Connection := none
        x11DefaultScreen := none
        x11ScreenNumber := -1
        x11RootWindow := XCB_WINDOW_NONE
        atoms := none
        nativeX11EventFilter := false
        processStartupEnvironment := [] }
    aboutToBlock := false
    awake := false
    xwaylandConnection := false
    futureWatchers := []
    DISPLAY := none }

inductive Signal
  | criticalError (code : Int)
  | started
  | x11ConnectionAboutToBeDestroyed
  | x11ConnectionChanged
deriving DecidableEq

/-- The effects of the supervisor, one per statement that acts on something
outside the local variables. -/
inductive Effect
  | emit (signal : Signal)
  | pipe
  | socketpair
  | dup (fd : Int)
  | createXWaylandConnection
  | destroyXWaylandConnection
  | newProcess
  | processStart
  | close (fd : Int)
  | connectAboutToBlock
  | connectAwake
  | newSocketNotifier (fd : Int)
  | disconnectAboutToBlock
  | disconnectAwake
  | deleteSocketNotifier
  | newDataBridge
  | deleteDataBridge
  | disconnectProcess
  | terminate
  | waitForFinished (msecs : Int)
  | deleteProcess
  | xcb_connect_to_fd (fd : Int)
  | setX11Connection (c : Option xcb_connection_t)
  | setX11DefaultScreen (screen : Option xcb_screen_t)
  | setX11ScreenNumber (n : Int)
  | setX11RootWindow (w : Nat)
  | createAtoms
  | destroyAtoms
  | installNativeX11EventFilter
  | removeNativeX11EventFilter
  | setInputFocus (focus : Nat)
  | xcb_disconnect (c : xcb_connection_t)
  | claim (selection : String) (root : Nat) (force : Bool)
  | setProcessStartupEnvironment
  | sync
  | destroySelectionOwner (selection : String)
  | newFutureWatcher (fd : Int)
  | filterNativeEvent (event : xcb_generic_event_t)
  | free (event : xcb_generic_event_t)
  | xcb_flush (c : xcb_connection_t)
deriving DecidableEq

/-- A run of supervisor code: the state reached and the effects performed, in
order, each with the state in which it was performed. -/
abbrev Run := Xwayland × List (Effect × Xwayland)

def Run.ret (s : Xwayland) : Run :=
  (s, [])

/-- Performs one more effect, which changes the state by `f`. -/
def Run.act (r : Run) (e : Effect) (f : Xwayland → Xwayland) : Run :=
  (f r.1, r.2 ++ [(e, r.1)])

/-- Continues a run with a call of `f`. -/
def Run.call (r : Run) (f : Xwayland → Run) : Run :=
  ((f r.1).1, r.2 ++ (f r.1).2)

/-- The effects of a run, in order, without the states. -/
def Run.effects (r : Run) : List Effect :=
  r.2.map Prod.fst

/-- The signals emitted by a run, in order. -/
def Run.signals (r : Run) : List Signal :=
  r.effects.filterMap (fun e => match e with
    | Effect.emit sig => some sig
    | _ => none)

/-- The `criticalError` codes emitted by a run, in order. -/
def Run.criticalErrors (r : Run) : List Int :=
  r.signals.filterMap (fun sig => match sig with
    | Signal.criticalError code => some code
    | _ => none)

/-! ## xwayland.cpp: functions -/

/-- The function `readDisplay`, once the pipe has been opened, up to the value it
exports as `DISPLAY`: the line read from the pipe, with a colon prepended and the
last byte removed, passed to `setenv` as a C string. -/
def readDisplay (line : QByteArray) : QByteArray :=
  let displayNumber : QByteArray := ':' :: line
  let displayNumber := displayNumber.remove ((displayNumber.length : Int) - 1) 1
  displayNumber.constData

/-- The results of the system calls made by `Xwayland::start`: the two ends of the
pipe and of the socket pair (`none` when the call fails), the results of the two
`dup` calls (negative on failure) and of `createXWaylandConnection` (-1 on
failure). -/
structure StartEnv where
  pipe : Option (Int × Int)
  socketpair : Option (Int × Int)
  dupSx : Int
  waylandSocket : Int
  dupWaylandSocket : Int
deriving DecidableEq

/-- The function `Xwayland::start`. -/
def Xwayland.start (os : StartEnv) (s : Xwayland) : Run :=
  let r := (Run.ret s).act Effect.pipe id
  match os.pipe with
  | none => r.act (Effect.emit (Signal.criticalError 1)) id
  | some pipeFds =>
    let r := r.act Effect.socketpair id
    match os.socketpair with
    | none => r.act (Effect.emit (Signal.criticalError 1)) id
    | some sx =>
      let r := r.act (Effect.dup sx.2) id
      let fd := os.dupSx
      if fd < 0 then r.act (Effect.emit (Signal.criticalError 20)) id
      else
        let waylandSocket := os.waylandSocket
        let r := r.act Effect.createXWaylandConnection
          (fun s => if waylandSocket = -1 then s else { s with xwaylandConnection := true })
        if waylandSocket = -1 then r.act (Effect.emit (Signal.criticalError 1)) id
        else
          let r := r.act (Effect.dup waylandSocket) id
          let wlfd := os.dupWaylandSocket
          if wlfd < 0 then r.act (Effect.emit (Signal.criticalError 20)) id
          else
            let r := r.act Effect.newProcess (fun s =>
              let env := s.m_app.processStartupEnvironment
              let env := env.insert "WAYLAND_SOCKET" (toString wlfd)
              let env := env.insert "EGL_PLATFORM" "DRM"
              { s with
                m_xcbConnectionFd := sx.1
                m_displayFileDescriptor := pipeFds.1
                m_xwaylandProcess := some
                  { state := ProcessState.NotRunning
                    connected := true
                    forwardedErrorChannel := true
                    program := "Xwayland"
                    environment := env
                    arguments :=
                      ["-displayfd", toString pipeFds.2, "-rootless", "-wm", toString fd] } })
            let r := r.act Effect.processStart (fun s =>
              { s with
                m_xwaylandProcess :=
                  s.m_xwaylandProcess.map (fun p => { p with state := ProcessState.Starting }) })
            r.act (Effect.close pipeFds.2) id

/-- The function `Xwayland::installSocketNotifier`. It reads the descriptor of the
application's connection, and is called only right after that connection was set. -/
def Xwayland.installSocketNotifier (s : Xwayland) : Run :=
  match s.m_app.x11Connection with
  | none => Run.ret s
  | some c =>
    let r := (Run.ret s).act (Effect.newSocketNotifier c.fd)
      (fun s => { s with m_socketNotifier := some c.fd })
    let r := r.act Effect.connectAboutToBlock (fun s => { s with aboutToBlock := true })
    r.act Effect.connectAwake (fun s => { s with awake := true })

/-- The function `Xwayland::uninstallSocketNotifier`. -/
def Xwayland.uninstallSocketNotifier (s : Xwayland) : Run :=
  let r := (Run.ret s).act Effect.disconnectAboutToBlock (fun s => { s with aboutToBlock := false })
  let r := r.act Effect.disconnectAwake (fun s => { s with awake := false })
  r.act Effect.deleteSocketNotifier (fun s => { s with m_socketNotifier := none })

/-- The function `Xwayland::createX11Connection`; `connection` is the result of
`xcb_connect_to_fd` and `atoms` are the atoms interned by `createAtoms`. -/
def Xwayland.createX11Connection (connection : Option xcb_connection_t) (atoms : Atoms)
    (s : Xwayland) : Run :=
  let r := (Run.ret s).act (Effect.xcb_connect_to_fd s.m_xcbConnectionFd) id
  match connection with
  | none => r
  | some c =>
    let screen := c.screen
    let r := r.act (Effect.setX11Connection (some c))
      (fun s => { s with m_app := { s.m_app with x11Connection := some c } })
    let r := r.act (Effect.setX11DefaultScreen (some screen))
      (fun s => { s with m_app := { s.m_app with x11DefaultScreen := some screen } })
    let r := r.act (Effect.setX11ScreenNumber 0)
      (fun s => { s with m_app := { s.m_app with x11ScreenNumber := 0 } })
    let r := r.act (Effect.setX11RootWindow screen.root)
      (fun s => { s with m_app := { s.m_app with x11RootWindow := screen.root } })
    let r := r.act Effect.createAtoms
      (fun s => { s with m_app := { s.m_app with atoms := some atoms } })
    let r := r.act Effect.installNativeX11EventFilter
      (fun s => { s with m_app := { s.m_app with nativeX11EventFilter := true } })
    let r := r.call Xwayland.installSocketNotifier
    r.act (Effect.emit Signal.x11ConnectionChanged) id

/-- The function `Xwayland::destroyX11Connection`. -/
def Xwayland.destroyX11Connection (s : Xwayland) : Run :=
  match s.m_app.x11Connection with
  | none => Run.ret s
  | some c =>
    let r := (Run.ret s).act (Effect.emit Signal.x11ConnectionAboutToBeDestroyed) id
    let r := r.act (Effect.setInputFocus XCB_INPUT_FOCUS_POINTER_ROOT) id
    let r := r.act Effect.destroyAtoms
      (fun s => { s with m_app := { s.m_app with atoms := none } })
    let r := r.act Effect.removeNativeX11EventFilter
      (fun s => { s with m_app := { s.m_app with nativeX11EventFilter := false } })
    let r := r.act (Effect.xcb_disconnect c) (fun s => { s with m_xcbConnectionFd := -1 })
    let r := r.act (Effect.setX11Connection none)
      (fun s => { s with m_app := { s.m_app with x11Connection := none } })
    let r := r.act (Effect.setX11DefaultScreen none)
      (fun s => { s with m_app := { s.m_app with x11DefaultScreen := none } })
    let r := r.act (Effect.setX11ScreenNumber (-1))
      (fun s => { s with m_app := { s.m_app with x11ScreenNumber := -1 } })
    let r := r.act (Effect.setX11RootWindow XCB_WINDOW_NONE)
      (fun s => { s with m_app := { s.m_app with x11RootWindow := XCB_WINDOW_NONE } })
    r.act (Effect.emit Signal.x11ConnectionChanged) id

/-- The function `Xwayland::stop`; `finishedInTime` is the result of
`waitForFinished(5000)`. -/
def Xwayland.stop (finishedInTime : Bool) (s : Xwayland) : Run :=
  match s.m_xwaylandProcess with
  | none => Run.ret s
  | some p =>
    let r := (Run.ret s).call Xwayland.uninstallSocketNotifier
    let r := r.act Effect.deleteDataBridge (fun s => { s with m_dataBridge := none })
    let r := r.call Xwayland.destroyX11Connection
    let r :=
      if p.state ≠ ProcessState.NotRunning then
        let r := r.act Effect.disconnectProcess (fun s =>
          { s with m_xwaylandProcess := some { p with connected := false } })
        let r := r.act Effect.terminate id
        r.act (Effect.waitForFinished 5000) (fun s =>
          if finishedInTime then
            { s with
              m_xwaylandProcess :=
                some { p with connected := false, state := ProcessState.NotRunning } }
          else s)
      else r
    let r := r.act Effect.deleteProcess (fun s => { s with m_xwaylandProcess := none })
    r.act Effect.destroyXWaylandConnection (fun s => { s with xwaylandConnection := false })

/-- The non-blocking `xcb_poll_for_event` on the queue of pending events. -/
def xcb_poll_for_event (queue : List xcb_generic_event_t) :
    Option xcb_generic_event_t × List xcb_generic_event_t :=
  match queue with
  | [] => (none, [])
  | event :: rest => (some event, rest)

/-- The `while` loop of `Xwayland::dispatchEvents`. -/
def Xwayland.drainEvents (queue : List xcb_generic_event_t) (r : Run) : Run :=
  match queue with
  | [] => r
  | event :: rest =>
    let r := r.act (Effect.filterNativeEvent event) id
    let r := r.act (Effect.free event) id
    Xwayland.drainEvents rest r

/-- The function `Xwayland::dispatchEvents`; `connectionError` is the result of
`xcb_connection_has_error` and `queue` the events pending on the connection. -/
def Xwayland.dispatchEvents (connectionError : Int) (queue : List xcb_generic_event_t)
    (finishedInTime : Bool) (s : Xwayland) : Run :=
  match s.m_app.x11Connection with
  | none => Run.ret s
  | some connection =>
    if connectionError ≠ 0 then Xwayland.stop finishedInTime s
    else
      let r := Xwayland.drainEvents queue (Run.ret s)
      r.act (Effect.xcb_flush connection) id

/-- The function `Xwayland::handleXwaylandStarted`: a watcher is created for the
read of the display number from `m_displayFileDescriptor`. -/
def Xwayland.handleXwaylandStarted (s : Xwayland) : Run :=
  (Run.ret s).act (Effect.newFutureWatcher s.m_displayFileDescriptor)
    (fun s => { s with futureWatchers := s.futureWatchers ++ [s.m_displayFileDescriptor] })

/-- The function `Xwayland::handleXwaylandFinished`. -/
def Xwayland.handleXwaylandFinished (_exitCode : Int) (finishedInTime : Bool) (s : Xwayland) :
    Run :=
  Xwayland.stop finishedInTime s

/-- The function `Xwayland::handleXwaylandError`. -/
def Xwayland.handleXwaylandError (error : ProcessError) (s : Xwayland) : Run :=
  match error with
  | ProcessError.FailedToStart => (Run.ret s).act (Effect.emit (Signal.criticalError 1)) id
  | ProcessError.Crashed => Run.ret s
  | ProcessError.Timedout => Run.ret s
  | ProcessError.WriteError => Run.ret s
  | ProcessError.ReadError => Run.ret s
  | ProcessError.UnknownError => Run.ret s

/-- What `Xwayland::continueStartupWithX` obtains from outside: the result of
`xcb_connect_to_fd`, the interned atoms, the Wayland server and the data devices
announced while the bridge is constructed. -/
structure StartupEnv where
  connection : Option xcb_connection_t
  atoms : Atoms
  server : WaylandServer
  published : List DataDeviceInterface
deriving DecidableEq

/-- The function `Xwayland::continueStartupWithX`. The `KSelectionOwner` is a local
object, constructed after the early return: it is destroyed when the function returns
from its last statement, after `Xcb::sync()`. -/
def Xwayland.continueStartupWithX (env : StartupEnv) (s : Xwayland) : Run :=
  let r := (Run.ret s).call (Xwayland.createX11Connection env.connection env.atoms)
  match r.1.m_app.x11Connection with
  | none => r.act (Effect.emit (Signal.criticalError 1)) id
  | some _xcbConn =>
    let r := r.act (Effect.claim "WM_S0" r.1.m_app.x11RootWindow true) id
    let r := r.act Effect.newDataBridge (fun s =>
      { s with m_dataBridge := some (DataBridge.new env.server s.m_app.atoms env.published) })
    let r := r.act Effect.setProcessStartupEnvironment (fun s =>
      let env := s.m_app.processStartupEnvironment
      let env := env.insert "DISPLAY" (QString.fromUtf8 (s.DISPLAY.getD []))
      { s with m_app := { s.m_app with processStartupEnvironment := env } })
    let r := r.act (Effect.emit Signal.started) id
    let r := r.act Effect.sync id
    r.act (Effect.destroySelectionOwner "WM_S0") id

/-- The function `Xwayland::dragMoveFilter`, with the calls made into the channels. -/
def Xwayland.dragMoveFilter (ch : Channels) (s : Xwayland) (target : Option Toplevel)
    (pos : QPoint) : DragEventReply × List ChannelCall :=
  match s.m_dataBridge with
  | none => (DragEventReply.Wayland, [])
  | some dataBridge => dataBridge.dragMoveFilter ch target pos

/-! ## The supervisor in its event loop -/

/-- What can happen to the supervisor from outside: a call of `start` or `stop`,
a signal of the helper process, the end of a pending display-number read (which
has exported `DISPLAY` and triggers `continueStartupWithX`), and a trigger of
`dispatchEvents`. -/
inductive Op
  | start (os : StartEnv)
  | stop (finishedInTime : Bool)
  | processStarted
  | processFinished (exitCode : Int)
  | processError (error : ProcessError)
  | displayRead (line : QByteArray) (env : StartupEnv)
  | dispatchEvents (connectionError : Int) (queue : List xcb_generic_event_t)
      (finishedInTime : Bool)
deriving DecidableEq

/-- One step of the event loop. A signal of the helper process is delivered only
while the process object exists, is in the state the signal leaves, and has its
signals connected; a display-number read ends only if one is pending. Otherwise
nothing happens. -/
def Xwayland.step (op : Op) (s : Xwayland) : Run :=
  match op with
  | Op.start os => Xwayland.start os s
  | Op.stop finishedInTime => Xwayland.stop finishedInTime s
  | Op.processStarted =>
    match s.m_xwaylandProcess with
    | none => Run.ret s
    | some p =>
      if p.state = ProcessState.Starting then
        let s := { s with m_xwaylandProcess := some { p with state := ProcessState.Running } }
        if p.connected then Xwayland.handleXwaylandStarted s else Run.ret s
      else Run.ret s
  | Op.processFinished exitCode =>
    match s.m_xwaylandProcess with
    | none => Run.ret s
    | some p =>
      if p.state = ProcessState.Running then
        let s := { s with m_xwaylandProcess := some { p with state := ProcessState.NotRunning } }
        if p.connected then Xwayland.handleXwaylandFinished exitCode true s else Run.ret s
      else Run.ret s
  | Op.processError error =>
    match s.m_xwaylandProcess with
    | none => Run.ret s
    | some p =>
      if error = ProcessError.FailedToStart then
        if p.state = ProcessState.Starting then
          let s := { s with m_xwaylandProcess := some { p with state := ProcessState.NotRunning } }
          if p.connected then Xwayland.handleXwaylandError error s else Run.ret s
        else Run.ret s
      else if p.connected then Xwayland.handleXwaylandError error s
      else Run.ret s
  | Op.displayRead line env =>
    match s.futureWatchers with
    | [] => Run.ret s
    | _ :: rest =>
      Xwayland.continueStartupWithX env
        { s with futureWatchers := rest, DISPLAY := some (readDisplay line) }
  | Op.dispatchEvents connectionError queue finishedInTime =>
    Xwayland.dispatchEvents connectionError queue finishedInTime s

/-- The run of a sequence of steps, from `s`. -/
def Xwayland.run (ops : List Op) (s : Xwayland) : Run :=
  ops.foldl (fun r op => r.call (Xwayland.step op)) (Run.ret s)

/-! ## Start/stop cycles -/

/-- Every system call of `start` succeeds. -/
def StartEnv.succeeds (os : StartEnv) : Bool :=
  os.pipe.isSome && os.socketpair.isSome && decide (0 ≤ os.dupSx) &&
    decide (os.waylandSocket ≠ -1) && decide (0 ≤ os.dupWaylandSocket)

/-- One start/stop cycle: a call of `start`, the start of the helper process, the end
of the display-number read with `continueStartupWithX`, and a call of `stop`. -/
structure Cycle where
  os : StartEnv
  line : QByteArray
  env : StartupEnv
  finishedInTime : Bool
deriving DecidableEq

/-- The launch of the cycle succeeds: the system calls of `start` and the connect. -/
def Cycle.successful (c : Cycle) : Bool :=
  c.os.succeeds && c.env.connection.isSome

/-- Where in a cycle the supervisor is observed: during the launch (after `start` and
after the start of the process), once the launch has completed, and after `stop`. -/
inductive Phase
  | launching
  | live
  | stopped
deriving DecidableEq

/-- The states observed after each step of each cycle, from `s` on. -/
def Xwayland.observeCycles : List Cycle → Xwayland → List (Phase × Xwayland)
  | [], _ => []
  | c :: cs, s =>
    let s1 := (Xwayland.step (Op.start c.os) s).1
    let s2 := (Xwayland.step Op.processStarted s1).1
    let s3 := (Xwayland.step (Op.displayRead c.line c.env) s2).1
    let s4 := (Xwayland.step (Op.stop c.finishedInTime) s3).1
    (Phase.launching, s1) :: (Phase.launching, s2) :: (Phase.live, s3) :: (Phase.stopped, s4)
      :: Xwayland.observeCycles cs s4

/-! ## Concrete inputs -/

/-- A call of `start` in which every system call succeeds. -/
def okStart : StartEnv :=
  { pipe := some (3, 4)
    socketpair := some (5, 6)
    dupSx := 7
    waylandSocket := 8
    dupWaylandSocket := 9 }

/-- A successful connect, with the internal data device announced second. -/
def okEnv : StartupEnv :=
  { connection := some { fd := 5, screen := { root := 42 } }
    atoms := { clipboard := 1, xdnd_selection := 2 }
    server := { internalConnection := 77, internalSeat := 1 }
    published := [{ id := 1, client := 5 }, { id := 2, client := 77 }] }

/-- The supervisor in a live session: started, display read, connected. -/
def liveSession : Xwayland :=
  (Xwayland.run [Op.start okStart, Op.processStarted, Op.displayRead ['1', '\n'] okEnv]
    Xwayland.initial).1

/-- The process object of `liveSession`. -/
def liveProcess : Process :=
  { state := ProcessState.Running
    connected := true
    forwardedErrorChannel := true
    program := "Xwayland"
    environment := [("WAYLAND_SOCKET", "9"), ("EGL_PLATFORM", "DRM")]
    arguments := ["-displayfd", "4", "-rootless", "-wm", "7"] }

/-- The answer of the channel to a `filterEvent` call made by the bridge. -/
def Channels.claims (ch : Channels) : ChannelCall → Bool
  | ChannelCall.clipboardFilterEvent c event => ch.clipboardFilterEvent c event
  | ChannelCall.dndFilterEvent d event => ch.dndFilterEvent d event
  | ChannelCall.dndDragMoveFilter _ _ _ => false

/-- Channels that both claim every event; the drag-and-drop channel takes a drag
move only over window 1. -/
def greedyChannels : Channels :=
  { clipboardFilterEvent := fun _ _ => true
    dndFilterEvent := fun _ _ => true
    dndDragMoveFilter := fun _ target _ =>
      if target = some { id := 1 } then DragEventReply.LegacySideHandled
      else DragEventReply.NotHandled }

/-- A bridge whose internal data device has been announced: both channels exist. -/
def readyBridge : DataBridge :=
  DataBridge.new okEnv.server (some okEnv.atoms) okEnv.published

/-- A bridge to which no data device has been announced yet: no channel exists. -/
def pendingBridge : DataBridge :=
  DataBridge.new okEnv.server (some okEnv.atoms) []

/-- A start in which the socket pair cannot be created. -/
def noSocketpairStart : StartEnv :=
  { pipe := some (3, 4)
    socketpair := none
    dupSx := 7
    waylandSocket := 8
    dupWaylandSocket := 9 }

/-- A successful cycle, stopped while the helper process does not exit in time. -/
def okCycle : Cycle :=
  { os := okStart
    line := ['1', '\n']
    env := okEnv
    finishedInTime := false }

/-! ## Observing signals -/

/-- The signals emitted by a run, in order, each with the state in which it was
emitted. -/
def Run.emitted (r : Run) : List (Signal × Xwayland) :=
  r.2.filterMap (fun entry => match entry.1 with
    | Effect.emit sig => some (sig, entry.2)
    | _ => none)

/-- The connection lifecycle signals emitted by a run (`x11ConnectionChanged` and
`x11ConnectionAboutToBeDestroyed`), in order, each with the application's X11
connection at the moment of the emission. -/
def Run.connectionSignals (r : Run) : List (Signal × Option xcb_connection_t) :=
  r.emitted.filterMap (fun x => match x.1 with
    | Signal.x11ConnectionChanged =>
      some (Signal.x11ConnectionChanged, x.2.m_app.x11Connection)
    | Signal.x11ConnectionAboutToBeDestroyed =>
      some (Signal.x11ConnectionAboutToBeDestroyed, x.2.m_app.x11Connection)
    | _ => none)

/-- The steps that tear a session down: a call of `stop`, the exit of the helper
process, and a trigger of `dispatchEvents` at which the connection reports an error. -/
def Op.isTeardown : Op → Bool
  | Op.stop _ => true
  | Op.processFinished _ => true
  | Op.dispatchEvents connectionError _ _ => connectionError != 0
  | _ => false

/-- The supervisor after `start` and the start of the helper process, while the read
of the display number is pending. -/
def launchingSession : Xwayland :=
  (Xwayland.run [Op.start okStart, Op.processStarted] Xwayland.initial).1

/-! ## The connect results the supervisor can receive -/

/-- A step the supervisor can receive in state `s`. The connect of
`continueStartupWithX` never yields null: `xcb_connect_to_fd` returns an object in an
error state when it fails. It is made on `m_xcbConnectionFd`, one end of the socket
pair of `start`; the X server on the other end is the helper process started by the
same call of `start`, which got a duplicate of that end as its `-wm` argument, and the
process handle is released only by `stop`, which ends that process and deletes it
before it clears the handle. So the connect yields an open connection only while a
process handle exists. Every other step can be received in every state. -/
def Op.receivableAt (op : Op) (s : Xwayland) : Bool :=
  match op with
  | Op.displayRead _ env =>
    match env.connection with
    | none => false
    | some c => decide (c.has_error ≠ 0) || s.m_xwaylandProcess.isSome
  | _ => true

/-- A display-number read that ends while no process handle exists, with a connect
that yields an object: the read was pending when the handle was released. -/
def Op.isStaleConnectAt (op : Op) (s : Xwayland) : Bool :=
  match op with
  | Op.displayRead _ env => env.connection.isSome && !s.m_xwaylandProcess.isSome
  | _ => false

/-- The test `p` holds of every step of the run of `ops` from `s`, in the state in
which the step is made. -/
def Xwayland.along (p : Op → Xwayland → Bool) : List Op → Xwayland → Bool
  | [], _ => true
  | op :: ops, s => p op s && Xwayland.along p ops (Xwayland.step op s).1

/-- Every step of the run of `ops` from `s` can be received. -/
def Xwayland.receivable (ops : List Op) (s : Xwayland) : Bool :=
  Xwayland.along Op.receivableAt ops s

/-- The object `xcb_connect_to_fd` returns when the connect fails: in the error state
`XCB_CONN_ERROR`, without descriptor, and with the setup the library gives for such an
object, in which no screen is listed; `root` is what is read where the first screen
would be. -/
def failedConnection : xcb_connection_t :=
  { fd := -1, screen := { root := 1 }, has_error := 1 }

/-- A connect that fails. -/
def failedEnv : StartupEnv :=
  { okEnv with connection := some failedConnection }

/-- A second call of `start` in which every system call succeeds, with descriptors
other than those of `okStart`. -/
def okRestart : StartEnv :=
  { pipe := some (10, 11)
    socketpair := some (12, 13)
    dupSx := 14
    waylandSocket := 15
    dupWaylandSocket := 16 }

/-- A successful connect on the socket pair of `okRestart`. -/
def okReconnect : StartupEnv :=
  { okEnv with connection := some { fd := 12, screen := { root := 42 } } }

/-- Two sessions, the second started while the display number of the first was still
being read. The supervisor is started and stopped before the first helper process has
written its display number, and started again; the first read ends, at the end of its
pipe, and `continueStartupWithX` connects to the second helper process; the second
helper process starts, which begins the second read, and exits, so that `stop` runs;
then the second read ends, and the connect, made on the descriptor -1, fails. -/
def overlappingSessions : List Op :=
  [Op.start okStart, Op.processStarted, Op.stop true, Op.start okRestart,
    Op.displayRead [] okReconnect, Op.processStarted, Op.processFinished 139,
    Op.displayRead ['1', '\n'] failedEnv]

/-! ## The registration of the data device -/

/-- The lambda connected to `dataDeviceCreated` runs up to `init()`: it is still
connected and passes its two early returns. -/
def DataBridge.accepts (server : WaylandServer) (b : DataBridge)
    (dataDeviceInterface : DataDeviceInterface) : Bool :=
  b.dc && b.m_dataDeviceInterface.isNone &&
    decide (dataDeviceInterface.client = server.internalConnection)

/-- The notifications, among `announced`, at which `init()` is run, from the bridge `b`
on. -/
def DataBridge.initRuns (server : WaylandServer) (atoms : Option Atoms) :
    DataBridge → List DataDeviceInterface → List DataDeviceInterface
  | _, [] => []
  | b, d :: rest =>
    (if b.accepts server d then [d] else []) ++
      DataBridge.initRuns server atoms (b.dataDeviceCreated server atoms d) rest

/-! ## The steps of `start` -/

/-- The steps of `Xwayland::start` that can fail, in the order in which they are made. -/
inductive StartFailure
  | pipe
  | socketpair
  | dupSocketpair
  | waylandConnection
  | dupWaylandSocket
deriving DecidableEq

/-- The first step of `start` that fails, if any: a later step is not made. -/
def StartEnv.failure (os : StartEnv) : Option StartFailure :=
  if os.pipe.isNone then some StartFailure.pipe
  else if os.socketpair.isNone then some StartFailure.socketpair
  else if os.dupSx < 0 then some StartFailure.dupSocketpair
  else if os.waylandSocket = -1 then some StartFailure.waylandConnection
  else if os.dupWaylandSocket < 0 then some StartFailure.dupWaylandSocket
  else none

/-- A failed duplication of a descriptor. -/
def StartFailure.isDup : StartFailure → Bool
  | StartFailure.dupSocketpair => true
  | StartFailure.dupWaylandSocket => true
  | _ => false

/-- A start in which the Wayland socket cannot be duplicated. -/
def noDupWaylandStart : StartEnv :=
  { pipe := some (3, 4)
    socketpair := some (5, 6)
    dupSx := 7
    waylandSocket := 8
    dupWaylandSocket := -1 }

end Xwl

/-! ## inputpanelv1client.cpp

The window of the input panel. Coordinates and extents are values of type `int`:
integers in the 32-bit range, and every `int` computation of the code and of `QRect`
wraps around at 32 bits (`int32`), as the machine computes it; the language leaves the
result of an overflow undefined. The base-class calls
`setReadyForPainting`, `autoRaise`, the repaints and the signals are effects.
`destroyClient`, `debug` and `windowType` are not embedded. -/

namespace KWin

/-- The result of an `int` computation whose exact value is `n`: the value in the
32-bit two's complement range that differs from `n` by a multiple of 2^32. -/
def int32 (n : Int) : Int :=
  (n + 2147483648) % 4294967296 - 2147483648

/-- The integer `n` is a value of type `int`. -/
def fitsInt32 (n : Int) : Bool :=
  decide (-2147483648 ≤ n) && decide (n ≤ 2147483647)

/-- The class `QSize`. -/
structure QSize where
  width : Int
  height : Int
deriving DecidableEq

/-- The member `QSize::isValid`: neither extent is negative. -/
def QSize.isValid (s : QSize) : Bool :=
  decide (0 ≤ s.width) && decide (0 ≤ s.height)

/-- The member `QSize::isEmpty`: an extent is smaller than 1. -/
def QSize.isEmpty (s : QSize) : Bool :=
  decide (s.width < 1) || decide (s.height < 1)

/-- The class `QRect`, stored as Qt stores it: the left, top, right and bottom
coordinates, the right and bottom ones inclusive. -/
structure QRect where
  x1 : Int
  y1 : Int
  x2 : Int
  y2 : Int
deriving DecidableEq

/-- The default constructor `QRect()`. -/
def QRect.null : QRect :=
  { x1 := 0, y1 := 0, x2 := -1, y2 := -1 }

/-- The constructor `QRect(topLeft, size)`: the right and bottom coordinates are
`topLeft.x() + size.width() - 1` and `topLeft.y() + size.height() - 1`. -/
def QRect.ofTopLeftSize (topLeft : Xwl.QPoint) (size : QSize) : QRect :=
  { x1 := topLeft.x
    y1 := topLeft.y
    x2 := int32 (int32 (topLeft.x + size.width) - 1)
    y2 := int32 (int32 (topLeft.y + size.height) - 1) }

def QRect.topLeft (r : QRect) : Xwl.QPoint :=
  { x := r.x1, y := r.y1 }

/-- The member `QRect::width`: `x2 - x1 + 1`. -/
def QRect.width (r : QRect) : Int :=
  int32 (int32 (r.x2 - r.x1) + 1)

/-- The member `QRect::height`: `y2 - y1 + 1`. -/
def QRect.height (r : QRect) : Int :=
  int32 (int32 (r.y2 - r.y1) + 1)

/-- The member `QRect::translate(dx, dy)`: `dx` is added to `x1` and `x2`, `dy` to
`y1` and `y2`. -/
def QRect.translate (r : QRect) (dx dy : Int) : QRect :=
  { x1 := int32 (r.x1 + dx)
    y1 := int32 (r.y1 + dy)
    x2 := int32 (r.x2 + dx)
    y2 := int32 (r.y2 + dy) }

/-- The four coordinates are values of type `int`. -/
def QRect.fits (r : QRect) : Bool :=
  fitsInt32 r.x1 && fitsInt32 r.y1 && fitsInt32 r.x2 && fitsInt32 r.y2

/-- The two extents are values of type `int`. -/
def QSize.fits (s : QSize) : Bool :=
  fitsInt32 s.width && fitsInt32 s.height

/-- The enum `InputPanelV1Client::Mode`. -/
inductive Mode
  | Toplevel
  | Overlay
deriving DecidableEq

/-- The output the panel is shown on, with its geometry. -/
structure AbstractWaylandOutput where
  geometry : QRect
deriving DecidableEq

/-- The members of `InputPanelV1Client`, the two geometries it inherits
(`m_frameGeometry`, `m_clientGeometry`) and the size of its surface
(`surface()->size()`). `m_output` is a guarded pointer: `none` when there is no output. -/
structure InputPanelV1Client where
  m_output : Option AbstractWaylandOutput
  m_mode : Mode
  m_visible : Bool
  m_frameGeometry : QRect
  m_clientGeometry : QRect
  surfaceSize : QSize
deriving DecidableEq

/-- What the panel emits and calls. -/
inductive PanelEffect
  | frameGeometryChanged (geometry : QRect)
  | clientGeometryChanged (geometry : QRect)
  | bufferGeometryChanged (geometry : QRect)
  | setReadyForPainting
  | autoRaise
  | disconnectOutput
  | connectOutput
  | clientHidden
  | addWorkspaceRepaint
  | addRepaintFull
  | windowHidden
  | windowShown
deriving DecidableEq

/-- The three signals that tell a change of geometry. -/
def PanelEffect.isGeometrySignal : PanelEffect → Bool
  | PanelEffect.frameGeometryChanged _ => true
  | PanelEffect.clientGeometryChanged _ => true
  | PanelEffect.bufferGeometryChanged _ => true
  | _ => false

/-- The panel after its constructor: mode Toplevel, visible, no output, and the two
inherited geometries default-constructed. -/
def InputPanelV1Client.new (surfaceSize : QSize) : InputPanelV1Client :=
  { m_output := none
    m_mode := Mode.Toplevel
    m_visible := true
    m_frameGeometry := QRect.null
    m_clientGeometry := QRect.null
    surfaceSize := surfaceSize }

/-- The function `InputPanelV1Client::setFrameGeometry`. -/
def InputPanelV1Client.setFrameGeometry (geometry : QRect) (s : InputPanelV1Client) :
    InputPanelV1Client × List PanelEffect :=
  if s.m_frameGeometry ≠ geometry then
    ({ s with m_frameGeometry := geometry, m_clientGeometry := geometry },
      [PanelEffect.frameGeometryChanged geometry, PanelEffect.clientGeometryChanged geometry,
        PanelEffect.bufferGeometryChanged geometry, PanelEffect.setReadyForPainting,
        PanelEffect.autoRaise])
  else (s, [])

/-- The function `InputPanelV1Client::reposition`; `focusedField` is the position of the
client that has the focused text input surface, if there is one. -/
def InputPanelV1Client.reposition (focusedField : Option Xwl.QPoint)
    (s : InputPanelV1Client) : InputPanelV1Client × List PanelEffect :=
  match s.m_mode with
  | Mode.Toplevel =>
    match s.m_output with
    | some output =>
      let panelSize := s.surfaceSize
      if !panelSize.isValid || panelSize.isEmpty then (s, [])
      else
        let outputGeometry := output.geometry
        let geo := QRect.ofTopLeftSize outputGeometry.topLeft panelSize
        let geo := geo.translate ((int32 (outputGeometry.width - panelSize.width)).tdiv 2)
          (int32 (outputGeometry.height - panelSize.height))
        s.setFrameGeometry geo
    | none => (s, [])
  | Mode.Overlay =>
    match focusedField with
    | some pos => s.setFrameGeometry (QRect.ofTopLeftSize pos s.surfaceSize)
    | none => (s, [])

/-- The function `InputPanelV1Client::setOutput`; `found` is the result of
`findOutput`. -/
def InputPanelV1Client.setOutput (found : Option AbstractWaylandOutput)
    (s : InputPanelV1Client) : InputPanelV1Client × List PanelEffect :=
  ({ s with m_output := found },
    (if s.m_output.isSome then [PanelEffect.disconnectOutput] else []) ++
      (if found.isSome then [PanelEffect.connectOutput] else []))

/-- The function `InputPanelV1Client::showOverlayPanel`. -/
def InputPanelV1Client.showOverlayPanel (found : Option AbstractWaylandOutput)
    (focusedField : Option Xwl.QPoint) (s : InputPanelV1Client) :
    InputPanelV1Client × List PanelEffect :=
  let r1 := s.setOutput found
  let r2 := InputPanelV1Client.reposition focusedField { r1.1 with m_mode := Mode.Overlay }
  (r2.1, r1.2 ++ r2.2)

/-- The function `InputPanelV1Client::showTopLevel`. -/
def InputPanelV1Client.showTopLevel (found : Option AbstractWaylandOutput)
    (focusedField : Option Xwl.QPoint) (s : InputPanelV1Client) :
    InputPanelV1Client × List PanelEffect :=
  let r1 := InputPanelV1Client.setOutput found { s with m_mode := Mode.Toplevel }
  let r2 := r1.1.reposition focusedField
  (r2.1, r1.2 ++ r2.2)

/-- The function `InputPanelV1Client::hideClient`. -/
def InputPanelV1Client.hideClient (hide : Bool) (focusedField : Option Xwl.QPoint)
    (s : InputPanelV1Client) : InputPanelV1Client × List PanelEffect :=
  let s := { s with m_visible := !hide }
  if hide then
    (s, [PanelEffect.clientHidden, PanelEffect.addWorkspaceRepaint, PanelEffect.windowHidden])
  else
    let r := s.reposition focusedField
    (r.1, r.2 ++ [PanelEffect.addRepaintFull, PanelEffect.windowShown])

/-- What happens to the panel: the calls of its functions, a change of the size of its
surface and a change of the geometry of its output (both trigger `reposition`), and
the destruction of its output. -/
inductive PanelOp
  | showOverlayPanel (found : Option AbstractWaylandOutput) (focusedField : Option Xwl.QPoint)
  | showTopLevel (found : Option AbstractWaylandOutput) (focusedField : Option Xwl.QPoint)
  | setFrameGeometry (geometry : QRect)
  | hideClient (hide : Bool) (focusedField : Option Xwl.QPoint)
  | surfaceSizeChanged (size : QSize) (focusedField : Option Xwl.QPoint)
  | outputChanged (geometry : QRect) (focusedField : Option Xwl.QPoint)
  | outputDestroyed
deriving DecidableEq

/-- One step of the panel. -/
def InputPanelV1Client.step (op : PanelOp) (s : InputPanelV1Client) :
    InputPanelV1Client × List PanelEffect :=
  match op with
  | PanelOp.showOverlayPanel found focusedField => s.showOverlayPanel found focusedField
  | PanelOp.showTopLevel found focusedField => s.showTopLevel found focusedField
  | PanelOp.setFrameGeometry geometry => s.setFrameGeometry geometry
  | PanelOp.hideClient hide focusedField => s.hideClient hide focusedField
  | PanelOp.surfaceSizeChanged size focusedField =>
    InputPanelV1Client.reposition focusedField { s with surfaceSize := size }
  | PanelOp.outputChanged geometry focusedField =>
    match s.m_output with
    | some _ =>
      InputPanelV1Client.reposition focusedField
        { s with m_output := some { geometry := geometry } }
    | none => (s, [])
  | PanelOp.outputDestroyed => ({ s with m_output := none }, [])

/-- The panel after a sequence of steps. -/
def InputPanelV1Client.after (ops : List PanelOp) (s : InputPanelV1Client) :
    InputPanelV1Client :=
  ops.foldl (fun s op => (s.step op).1) s

/-- A panel shown at the bottom of an output of 1920 by 1080 at (100, 0), with a
surface of 801 by 300. -/
def shownPanel : InputPanelV1Client :=
  InputPanelV1Client.after
    [PanelOp.showTopLevel (some { geometry := { x1 := 100, y1 := 0, x2 := 2019, y2 := 1079 } })
      none]
    (InputPanelV1Client.new { width := 801, height := 300 })

/-- The rectangle asked for in mode Toplevel, in exact arithmetic: of the size of the
panel, with its top-left corner at (ox + (ow - pw) / 2, oy + oh - ph), the division
truncating, where (ox, oy) is the top-left corner of `g`, (ow, oh) its extents and
(pw, ph) the size of the panel. -/
def centredAtBottom (g : QRect) (size : QSize) : QRect :=
  let ow := g.x2 - g.x1 + 1
  let oh := g.y2 - g.y1 + 1
  let x := g.x1 + (ow - size.width).tdiv 2
  let y := g.y1 + oh - size.height
  { x1 := x, y1 := y, x2 := x + size.width - 1, y2 := y + size.height - 1 }

/-- The placement of a panel of size `size` on an output of geometry `g` stays in the
range of `int`: the coordinates of the output, the extents of the panel, the extents of
the output, the difference of the two widths, and the four coordinates of the
rectangle asked for. -/
def repositionInRange (g : QRect) (size : QSize) : Bool :=
  g.fits && size.fits && fitsInt32 (g.x2 - g.x1 + 1) && fitsInt32 (g.y2 - g.y1 + 1) &&
    fitsInt32 (g.x2 - g.x1 + 1 - size.width) && (centredAtBottom g size).fits

/-- A panel of 801 by 300 on an output of 648 by 1080 whose right edge is the largest
`int`: the right edge asked for, 2147483724, is no `int`. -/
def rightmostPanel : InputPanelV1Client :=
  { m_output := some
      { geometry := { x1 := 2147483000, y1 := 0, x2 := 2147483647, y2 := 1079 } }
    m_mode := Mode.Toplevel
    m_visible := true
    m_frameGeometry := QRect.null
    m_clientGeometry := QRect.null
    surfaceSize := { width := 801, height := 300 } }

/-- A panel of 2001 by 300 on an output of 100 by 1080 at (-2147483000, 0): the left
edge asked for, -2147483950, is no `int`. -/
def leftmostPanel : InputPanelV1Client :=
  { m_output := some
      { geometry := { x1 := -2147483000, y1 := 0, x2 := -2147482901, y2 := 1079 } }
    m_mode := Mode.Toplevel
    m_visible := true
    m_frameGeometry := QRect.null
    m_clientGeometry := QRect.null
    surfaceSize := { width := 2001, height := 300 } }

/-- A panel whose surface, 1923 by 300, is wider than its output of 1920 by 1080 at
(100, 0). -/
def widePanel : InputPanelV1Client :=
  InputPanelV1Client.after
    [PanelOp.showTopLevel (some { geometry := { x1 := 100, y1 := 0, x2 := 2019, y2 := 1079 } })
      none]
    (InputPanelV1Client.new { width := 1923, height := 300 })

end KWin

namespace Xwl

/-! ## Theorems: `Xwayland::stop` -/

theorem stop_of_no_process (b : Bool) (s : Xwayland) (h : s.m_xwaylandProcess = none) :
    Xwayland.stop b s = (s, []) := by
  simp [Xwayland.stop, Run.ret, h]

theorem stop_releases_process (b : Bool) (s : Xwayland) :
    (Xwayland.stop b s).1.m_xwaylandProcess = none := by
  cases h : s.m_xwaylandProcess with
  | none => simp [Xwayland.stop, Run.ret, h]
  | some p => simp [Xwayland.stop, Run.act, Run.call, Run.ret, h]

theorem stop_destroys_connection (b : Bool) (s : Xwayland) (p : Process)
    (h : s.m_xwaylandProcess = some p) :
    (Xwayland.stop b s).1.m_app.x11Connection = none := by
  cases hc : s.m_app.x11Connection <;> by_cases hp : p.state = ProcessState.NotRunning <;>
    cases b <;>
    simp [Xwayland.stop, Xwayland.uninstallSocketNotifier, Xwayland.destroyX11Connection,
      Run.act, Run.call, Run.ret, h, hc, hp]

/-- C1: when a process handle exists, `stop` performs, in this order: the removal of
the two dispatcher hooks and of the socket notifier; the deletion of the data bridge;
the destruction of the X11 connection (nothing when there is none, else from the
about-to-be-destroyed signal to the connection-changed signal); if the process is not
in state NotRunning, the disconnection of its signals, the termination request and the
wait of 5000 ms; the deletion of the process object; and last the destruction of the
compositor-side Xwayland connection. -/
theorem stop_teardown_order (finishedInTime : Bool) (s : Xwayland) (p : Process)
    (h : s.m_xwaylandProcess = some p) :
    (Xwayland.stop finishedInTime s).effects =
      [Effect.disconnectAboutToBlock, Effect.disconnectAwake, Effect.deleteSocketNotifier,
        Effect.deleteDataBridge]
      ++ (match s.m_app.x11Connection with
          | none => []
          | some c =>
            [Effect.emit Signal.x11ConnectionAboutToBeDestroyed,
              Effect.setInputFocus XCB_INPUT_FOCUS_POINTER_ROOT,
              Effect.destroyAtoms, Effect.removeNativeX11EventFilter, Effect.xcb_disconnect c,
              Effect.setX11Connection none, Effect.setX11DefaultScreen none,
              Effect.setX11ScreenNumber (-1), Effect.setX11RootWindow XCB_WINDOW_NONE,
              Effect.emit Signal.x11ConnectionChanged])
      ++ (if p.state = ProcessState.NotRunning then []
          else [Effect.disconnectProcess, Effect.terminate, Effect.waitForFinished 5000])
      ++ [Effect.deleteProcess, Effect.destroyXWaylandConnection] := by
  cases hc : s.m_app.x11Connection <;> by_cases hp : p.state = ProcessState.NotRunning <;>
    simp [Xwayland.stop, Xwayland.uninstallSocketNotifier, Xwayland.destroyX11Connection,
      Run.effects, Run.act, Run.call, Run.ret, h, hc, hp]

theorem stop_teardown_order_witness :
    liveSession.m_xwaylandProcess = some liveProcess ∧
    (Xwayland.stop false liveSession).effects =
      [Effect.disconnectAboutToBlock, Effect.disconnectAwake, Effect.deleteSocketNotifier,
        Effect.deleteDataBridge,
        Effect.emit Signal.x11ConnectionAboutToBeDestroyed,
        Effect.setInputFocus 1, Effect.destroyAtoms, Effect.removeNativeX11EventFilter,
        Effect.xcb_disconnect { fd := 5, screen := { root := 42 } },
        Effect.setX11Connection none, Effect.setX11DefaultScreen none,
        Effect.setX11ScreenNumber (-1), Effect.setX11RootWindow 0,
        Effect.emit Signal.x11ConnectionChanged,
        Effect.disconnectProcess, Effect.terminate, Effect.waitForFinished 5000,
        Effect.deleteProcess, Effect.destroyXWaylandConnection] :=
  ⟨by decide, stop_teardown_order false liveSession liveProcess (by decide)⟩

/-- C2: `stop` is idempotent. After a call of `stop`, a second call returns the state
it was given and performs no effect (so emits no signal); and a call of `stop` while
no process handle exists changes nothing and performs no effect. -/
theorem stop_idempotent (first second : Bool) (s : Xwayland) :
    Xwayland.stop second (Xwayland.stop first s).1 = ((Xwayland.stop first s).1, []) ∧
    (s.m_xwaylandProcess = none → Xwayland.stop first s = (s, [])) :=
  ⟨stop_of_no_process second _ (stop_releases_process first s), stop_of_no_process first s⟩

theorem stop_idempotent_witness :
    Xwayland.stop true (Xwayland.stop false liveSession).1
      = ((Xwayland.stop false liveSession).1, []) ∧
    Xwayland.stop true Xwayland.initial = (Xwayland.initial, []) :=
  ⟨(stop_idempotent false true liveSession).1, (stop_idempotent true true Xwayland.initial).2 rfl⟩

/-! ## Theorems: the data bridge -/

/-- The result and the calls of `filterEvent`, channel by channel. -/
theorem filterEvent_cases (ch : Channels) (b : DataBridge) (event : xcb_generic_event_t) :
    b.filterEvent ch event =
      match b.m_clipboard, b.m_dnd with
      | none, none => (false, [])
      | none, some d => (ch.dndFilterEvent d event, [ChannelCall.dndFilterEvent d event])
      | some c, none =>
        (ch.clipboardFilterEvent c event, [ChannelCall.clipboardFilterEvent c event])
      | some c, some d =>
        if ch.clipboardFilterEvent c event = true then
          (true, [ChannelCall.clipboardFilterEvent c event])
        else
          (ch.dndFilterEvent d event,
            [ChannelCall.clipboardFilterEvent c event, ChannelCall.dndFilterEvent d event]) := by
  cases hc : b.m_clipboard with
  | none =>
    cases hd : b.m_dnd with
    | none => simp [DataBridge.filterEvent, hc, hd]
    | some d => cases h2 : ch.dndFilterEvent d event <;> simp [DataBridge.filterEvent, hc, hd, h2]
  | some c =>
    cases hd : b.m_dnd with
    | none =>
      cases h1 : ch.clipboardFilterEvent c event <;> simp [DataBridge.filterEvent, hc, hd, h1]
    | some d =>
      cases h1 : ch.clipboardFilterEvent c event <;> cases h2 : ch.dndFilterEvent d event <;>
        simp [DataBridge.filterEvent, hc, hd, h1, h2]

/-- C5: `filterEvent` returns true exactly when the clipboard channel exists and
claims the event or the drag-and-drop channel exists and claims it; with neither
channel created it returns false. -/
theorem filterEvent_true_iff (ch : Channels) (b : DataBridge) (event : xcb_generic_event_t) :
    ((b.filterEvent ch event).1 = true ↔
      (∃ c, b.m_clipboard = some c ∧ ch.clipboardFilterEvent c event = true) ∨
      (∃ d, b.m_dnd = some d ∧ ch.dndFilterEvent d event = true)) ∧
    (b.m_clipboard = none → b.m_dnd = none → (b.filterEvent ch event).1 = false) := by
  rw [filterEvent_cases]
  constructor
  · cases hc : b.m_clipboard with
    | none => cases hd : b.m_dnd <;> simp
    | some c =>
      cases hd : b.m_dnd with
      | none => simp
      | some d =>
        cases h1 : ch.clipboardFilterEvent c event <;> simp [h1]
  · intro hc hd
    simp [hc, hd]

theorem filterEvent_true_iff_witness :
    ((readyBridge.filterEvent greedyChannels ⟨35, 7⟩).1 = true ↔
      (∃ c, readyBridge.m_clipboard = some c ∧
        greedyChannels.clipboardFilterEvent c ⟨35, 7⟩ = true) ∨
      (∃ d, readyBridge.m_dnd = some d ∧ greedyChannels.dndFilterEvent d ⟨35, 7⟩ = true)) ∧
    (pendingBridge.filterEvent greedyChannels ⟨35, 7⟩).1 = false :=
  ⟨(filterEvent_true_iff greedyChannels readyBridge ⟨35, 7⟩).1,
    (filterEvent_true_iff greedyChannels pendingBridge ⟨35, 7⟩).2 rfl rfl⟩

/-- C6: `filterEvent` is first-match-wins. The calls it makes are the offer to the
clipboard channel, if that channel exists, followed by the offer to the drag-and-drop
channel, which is made only if that channel exists and the clipboard channel is absent
or did not claim the event. When the clipboard channel claims the event the result is
true and no other call is made. At most one of the channels offered the event answered
true, and exactly one did when the result is true. -/
theorem filterEvent_first_match_wins (ch : Channels) (b : DataBridge)
    (event : xcb_generic_event_t) :
    (b.filterEvent ch event).2 =
      (match b.m_clipboard with
        | some c => [ChannelCall.clipboardFilterEvent c event]
        | none => [])
      ++ (match b.m_dnd with
        | some d =>
          if b.m_clipboard.any (fun c => ch.clipboardFilterEvent c event) = true then []
          else [ChannelCall.dndFilterEvent d event]
        | none => []) ∧
    (∀ c, b.m_clipboard = some c → ch.clipboardFilterEvent c event = true →
      b.filterEvent ch event = (true, [ChannelCall.clipboardFilterEvent c event])) ∧
    ((b.filterEvent ch event).2.filter ch.claims).length ≤ 1 ∧
    ((b.filterEvent ch event).1 = true ↔
      ((b.filterEvent ch event).2.filter ch.claims).length = 1) := by
  rw [filterEvent_cases]
  cases hc : b.m_clipboard with
  | none =>
    cases hd : b.m_dnd with
    | none => simp
    | some d => cases h2 : ch.dndFilterEvent d event <;> simp [Channels.claims, h2]
  | some c =>
    cases hd : b.m_dnd with
    | none => cases h1 : ch.clipboardFilterEvent c event <;> simp [Channels.claims, h1]
    | some d =>
      cases h1 : ch.clipboardFilterEvent c event <;> cases h2 : ch.dndFilterEvent d event <;>
        simp [Channels.claims, h1, h2]

theorem filterEvent_first_match_wins_witness :
    readyBridge.filterEvent greedyChannels ⟨35, 7⟩
      = (true, [ChannelCall.clipboardFilterEvent { atom := some 1 } ⟨35, 7⟩]) :=
  (filterEvent_first_match_wins greedyChannels readyBridge ⟨35, 7⟩).2.1
    { atom := some 1 } (by decide) rfl

/-- C7, as the code has it: when there is nothing to delegate to, `dragMoveFilter`
makes no call and returns the reply `DragEventReply::Wayland`, the native-side value,
for every target and position: `Xwayland::dragMoveFilter` when there is no data
bridge, `DataBridge::dragMoveFilter` when there is no drag-and-drop channel. -/
theorem dragMoveFilter_nothing_to_delegate (ch : Channels) (target : Option Toplevel)
    (pos : QPoint) :
    (∀ s : Xwayland, s.m_dataBridge = none →
      s.dragMoveFilter ch target pos = (DragEventReply.Wayland, [])) ∧
    (∀ b : DataBridge, b.m_dnd = none →
      b.dragMoveFilter ch target pos = (DragEventReply.Wayland, [])) := by
  constructor
  · intro s h
    simp [Xwayland.dragMoveFilter, h]
  · intro b h
    simp [DataBridge.dragMoveFilter, h]

theorem dragMoveFilter_nothing_to_delegate_witness :
    Xwayland.initial.dragMoveFilter greedyChannels (some { id := 1 }) ⟨10, 20⟩
      = (DragEventReply.Wayland, []) ∧
    pendingBridge.dragMoveFilter greedyChannels (some { id := 1 }) ⟨10, 20⟩
      = (DragEventReply.Wayland, []) :=
  ⟨(dragMoveFilter_nothing_to_delegate greedyChannels (some { id := 1 }) ⟨10, 20⟩).1
      Xwayland.initial rfl,
    (dragMoveFilter_nothing_to_delegate greedyChannels (some { id := 1 }) ⟨10, 20⟩).2
      pendingBridge rfl⟩

/-- C7, as stated, fails: without a data bridge, and in a bridge without a
drag-and-drop channel, the reply of `dragMoveFilter` is not NotHandled. -/
theorem dragMoveFilter_reply_is_not_NotHandled :
    Xwayland.initial.m_dataBridge = none ∧
    (Xwayland.initial.dragMoveFilter greedyChannels (some { id := 1 }) ⟨10, 20⟩).1
      ≠ DragEventReply.NotHandled ∧
    pendingBridge.m_dnd = none ∧
    (pendingBridge.dragMoveFilter greedyChannels (some { id := 1 }) ⟨10, 20⟩).1
      ≠ DragEventReply.NotHandled := by
  decide

/-- C8: when the data bridge exists and has its drag-and-drop channel,
`Xwayland::dragMoveFilter` returns the reply of that channel's `dragMoveFilter` for the
same target and position, and that call is the only call made. -/
theorem dragMoveFilter_delegates (ch : Channels) (s : Xwayland) (b : DataBridge) (d : Dnd)
    (target : Option Toplevel) (pos : QPoint)
    (hb : s.m_dataBridge = some b) (hd : b.m_dnd = some d) :
    s.dragMoveFilter ch target pos =
      (ch.dndDragMoveFilter d target pos, [ChannelCall.dndDragMoveFilter d target pos]) := by
  simp [Xwayland.dragMoveFilter, DataBridge.dragMoveFilter, hb, hd]

theorem dragMoveFilter_delegates_witness :
    liveSession.dragMoveFilter greedyChannels (some { id := 1 }) ⟨10, 20⟩ =
      (DragEventReply.LegacySideHandled,
        [ChannelCall.dndDragMoveFilter { atom := some 2 } (some { id := 1 }) ⟨10, 20⟩]) :=
  dragMoveFilter_delegates greedyChannels liveSession readyBridge { atom := some 2 }
    (some { id := 1 }) ⟨10, 20⟩ (by decide) (by decide)

/-! ## Theorems: failures at launch -/

/-- C9: when the pipe or the socket pair cannot be created, `start` emits
`criticalError` once (with code 1) and no other signal, creates and starts no process,
and leaves `m_xwaylandProcess`, `m_xcbConnectionFd` and `m_displayFileDescriptor` as
they were. -/
theorem start_fails_without_pipe_or_socketpair (os : StartEnv) (s : Xwayland)
    (h : os.pipe = none ∨ os.socketpair = none) :
    (Xwayland.start os s).signals = [Signal.criticalError 1] ∧
    Effect.newProcess ∉ (Xwayland.start os s).effects ∧
    Effect.processStart ∉ (Xwayland.start os s).effects ∧
    (Xwayland.start os s).1.m_xwaylandProcess = s.m_xwaylandProcess ∧
    (Xwayland.start os s).1.m_xcbConnectionFd = s.m_xcbConnectionFd ∧
    (Xwayland.start os s).1.m_displayFileDescriptor = s.m_displayFileDescriptor := by
  cases hp : os.pipe with
  | none => simp [Xwayland.start, Run.signals, Run.effects, Run.act, Run.ret, hp]
  | some pipeFds =>
    have hs : os.socketpair = none := by
      rcases h with h | h
      · simp [hp] at h
      · exact h
    simp [Xwayland.start, Run.signals, Run.effects, Run.act, Run.ret, hp, hs]

theorem start_fails_without_pipe_or_socketpair_witness :
    (Xwayland.start noSocketpairStart liveSession).signals = [Signal.criticalError 1] ∧
    Effect.newProcess ∉ (Xwayland.start noSocketpairStart liveSession).effects ∧
    Effect.processStart ∉ (Xwayland.start noSocketpairStart liveSession).effects ∧
    (Xwayland.start noSocketpairStart liveSession).1.m_xwaylandProcess
      = liveSession.m_xwaylandProcess ∧
    (Xwayland.start noSocketpairStart liveSession).1.m_xcbConnectionFd
      = liveSession.m_xcbConnectionFd ∧
    (Xwayland.start noSocketpairStart liveSession).1.m_displayFileDescriptor
      = liveSession.m_displayFileDescriptor :=
  start_fails_without_pipe_or_socketpair noSocketpairStart liveSession (Or.inr rfl)

/-- C10: on the process error FailedToStart the error handler emits `criticalError(1)`
and does nothing else: the state is unchanged, so no process is started and the X11
connection and the data bridge stay null when they were. On every other process error
the handler changes nothing and emits nothing. The same holds when the spawn failure
is delivered by the event loop after a successful `start` from the initial state: one
`criticalError(1)`, no second process, no connection and no data bridge. -/
theorem handleXwaylandError_reports_failed_start (s : Xwayland) :
    Xwayland.handleXwaylandError ProcessError.FailedToStart s
      = (s, [(Effect.emit (Signal.criticalError 1), s)]) ∧
    (∀ error, error ≠ ProcessError.FailedToStart →
      Xwayland.handleXwaylandError error s = (s, [])) ∧
    ((Xwayland.step (Op.processError ProcessError.FailedToStart)
        (Xwayland.start okStart Xwayland.initial).1).effects
        = [Effect.emit (Signal.criticalError 1)] ∧
      (Xwayland.step (Op.processError ProcessError.FailedToStart)
        (Xwayland.start okStart Xwayland.initial).1).1.m_app.x11Connection = none ∧
      (Xwayland.step (Op.processError ProcessError.FailedToStart)
        (Xwayland.start okStart Xwayland.initial).1).1.m_dataBridge = none) := by
  refine ⟨by simp [Xwayland.handleXwaylandError, Run.act, Run.ret], ?_, by decide⟩
  intro error h
  cases error <;> simp_all [Xwayland.handleXwaylandError, Run.ret]

theorem handleXwaylandError_reports_failed_start_witness :
    Xwayland.handleXwaylandError ProcessError.Crashed liveSession = (liveSession, []) :=
  (handleXwaylandError_reports_failed_start liveSession).2.1 ProcessError.Crashed (by decide)

/-! ## Theorems: start/stop cycles -/

theorem start_of_succeeds (os : StartEnv) (s : Xwayland) (h : os.succeeds = true) :
    ∃ p, (Xwayland.start os s).1.m_xwaylandProcess = some p ∧
      p.state = ProcessState.Starting ∧ p.connected = true ∧
      (Xwayland.start os s).1.m_app = s.m_app := by
  obtain ⟨pipe, socketpair, dupSx, waylandSocket, dupWaylandSocket⟩ := os
  simp only [StartEnv.succeeds, Bool.and_eq_true, decide_eq_true_eq] at h
  obtain ⟨⟨⟨⟨h1, h2⟩, h3⟩, h4⟩, h5⟩ := h
  obtain ⟨pipeFds, rfl⟩ := Option.isSome_iff_exists.mp h1
  obtain ⟨sx, rfl⟩ := Option.isSome_iff_exists.mp h2
  have h3' : ¬ dupSx < 0 := not_lt.mpr h3
  have h5' : ¬ dupWaylandSocket < 0 := not_lt.mpr h5
  simp [Xwayland.start, Run.act, Run.ret, h3', h4, h5']

theorem processStarted_of_starting (s : Xwayland) (p : Process)
    (hp : s.m_xwaylandProcess = some p) (hs : p.state = ProcessState.Starting)
    (hc : p.connected = true) :
    (Xwayland.step Op.processStarted s).1.m_xwaylandProcess
        = some { p with state := ProcessState.Running } ∧
      (Xwayland.step Op.processStarted s).1.m_app = s.m_app ∧
      (Xwayland.step Op.processStarted s).1.futureWatchers ≠ [] := by
  simp [Xwayland.step, Xwayland.handleXwaylandStarted, Run.act, Run.ret, hp, hs, hc]

theorem continueStartupWithX_of_connected (env : StartupEnv) (s : Xwayland)
    (c : xcb_connection_t) (h : env.connection = some c) :
    (Xwayland.continueStartupWithX env s).1.m_xwaylandProcess = s.m_xwaylandProcess ∧
      (Xwayland.continueStartupWithX env s).1.m_app.x11Connection = some c := by
  simp [Xwayland.continueStartupWithX, Xwayland.createX11Connection,
    Xwayland.installSocketNotifier, Run.act, Run.call, Run.ret, h]

theorem displayRead_of_pending (line : QByteArray) (env : StartupEnv) (s : Xwayland)
    (c : xcb_connection_t) (h : env.connection = some c) (hw : s.futureWatchers ≠ []) :
    (Xwayland.step (Op.displayRead line env) s).1.m_xwaylandProcess = s.m_xwaylandProcess ∧
      (Xwayland.step (Op.displayRead line env) s).1.m_app.x11Connection = some c := by
  cases hf : s.futureWatchers with
  | nil => exact absurd hf hw
  | cons w ws =>
    simp only [Xwayland.step, hf]
    exact continueStartupWithX_of_connected env _ c h

/-- The observations of successful cycles, from any state without process handle and
without connection. -/
theorem observeCycles_consistent (cycles : List Cycle) :
    ∀ s : Xwayland, s.m_xwaylandProcess = none → s.m_app.x11Connection = none →
      (∀ c ∈ cycles, c.successful = true) →
      ∀ o ∈ Xwayland.observeCycles cycles s,
        (o.1 = Phase.launching →
          o.2.m_xwaylandProcess.isSome = true ∧ o.2.m_app.x11Connection = none) ∧
        (o.1 = Phase.live →
          o.2.m_xwaylandProcess.isSome = true ∧ o.2.m_app.x11Connection.isSome = true) ∧
        (o.1 = Phase.stopped →
          o.2.m_xwaylandProcess = none ∧ o.2.m_app.x11Connection = none) := by
  induction cycles with
  | nil =>
    intro s _ _ _ o ho
    simp [Xwayland.observeCycles] at ho
  | cons c cs ih =>
    intro s _ hx hall o ho
    have hc := hall c (List.mem_cons_self _ _)
    simp only [Cycle.successful, Bool.and_eq_true] at hc
    obtain ⟨hos, hconn⟩ := hc
    obtain ⟨conn, hconn⟩ := Option.isSome_iff_exists.mp hconn
    obtain ⟨p, h1p, h1s, h1c, h1a⟩ := start_of_succeeds c.os s hos
    obtain ⟨h2p, h2a, h2w⟩ := processStarted_of_starting (Xwayland.start c.os s).1 p h1p h1s h1c
    obtain ⟨h3p, h3x⟩ := displayRead_of_pending c.line c.env _ conn hconn h2w
    rw [h2p] at h3p
    have h4p := stop_releases_process c.finishedInTime
      (Xwayland.step (Op.displayRead c.line c.env)
        (Xwayland.step Op.processStarted (Xwayland.start c.os s).1).1).1
    have h4x := stop_destroys_connection c.finishedInTime _ _ h3p
    simp only [Xwayland.observeCycles, List.mem_cons] at ho
    rcases ho with rfl | rfl | rfl | rfl | ho
    · refine ⟨fun _ => ⟨?_, ?_⟩, fun h => by simp at h, fun h => by simp at h⟩
      · show (Xwayland.start c.os s).1.m_xwaylandProcess.isSome = true
        rw [h1p]; rfl
      · show (Xwayland.start c.os s).1.m_app.x11Connection = none
        rw [h1a]; exact hx
    · refine ⟨fun _ => ⟨?_, ?_⟩, fun h => by simp at h, fun h => by simp at h⟩
      · show (Xwayland.step Op.processStarted
          (Xwayland.start c.os s).1).1.m_xwaylandProcess.isSome = true
        rw [h2p]; rfl
      · show (Xwayland.step Op.processStarted
          (Xwayland.start c.os s).1).1.m_app.x11Connection = none
        rw [h2a, h1a]; exact hx
    · refine ⟨fun h => by simp at h, fun _ => ⟨?_, ?_⟩, fun h => by simp at h⟩
      · show (Xwayland.step (Op.displayRead c.line c.env) (Xwayland.step Op.processStarted
          (Xwayland.start c.os s).1).1).1.m_xwaylandProcess.isSome = true
        rw [h3p]; rfl
      · show (Xwayland.step (Op.displayRead c.line c.env) (Xwayland.step Op.processStarted
          (Xwayland.start c.os s).1).1).1.m_app.x11Connection.isSome = true
        rw [h3x]; rfl
    · exact ⟨fun h => by simp at h, fun h => by simp at h,
        fun _ => ⟨h4p, h4x⟩⟩
    · exact ih _ h4p h4x (fun c' hc' => hall c' (List.mem_cons_of_mem _ hc')) o ho

/-- C4, as the code has it: across any sequence of start/stop cycles whose launches
succeed, from the initial state, the X11 connection is non-null if and only if a
process handle exists whenever the supervisor is observed after a launch has
completed (after `continueStartupWithX`, where both exist) or after `stop` (where
both are null); while a launch is under way, after `start` and after the start of the
process, the process handle exists and the connection is still null. -/
theorem connection_iff_process_across_cycles (cycles : List Cycle)
    (h : ∀ c ∈ cycles, c.successful = true) :
    ∀ o ∈ Xwayland.observeCycles cycles Xwayland.initial,
      (o.1 ≠ Phase.launching →
        (o.2.m_app.x11Connection.isSome = true ↔ o.2.m_xwaylandProcess.isSome = true)) ∧
      (o.1 = Phase.launching →
        o.2.m_xwaylandProcess.isSome = true ∧ o.2.m_app.x11Connection = none) ∧
      (o.1 = Phase.live →
        o.2.m_xwaylandProcess.isSome = true ∧ o.2.m_app.x11Connection.isSome = true) ∧
      (o.1 = Phase.stopped →
        o.2.m_xwaylandProcess = none ∧ o.2.m_app.x11Connection = none) := by
  intro o ho
  obtain ⟨h1, h2, h3⟩ := observeCycles_consistent cycles Xwayland.initial rfl rfl h o ho
  refine ⟨fun hne => ?_, h1, h2, h3⟩
  cases hph : o.1 with
  | launching => exact absurd hph hne
  | live =>
    obtain ⟨hp, hx⟩ := h2 hph
    simp [hp, hx]
  | stopped =>
    obtain ⟨hp, hx⟩ := h3 hph
    simp [hp, hx]

theorem connection_iff_process_across_cycles_witness :
    (∀ c ∈ [okCycle, okCycle], c.successful = true) ∧
    ∀ o ∈ Xwayland.observeCycles [okCycle, okCycle] Xwayland.initial,
      (o.1 ≠ Phase.launching →
        (o.2.m_app.x11Connection.isSome = true ↔ o.2.m_xwaylandProcess.isSome = true)) ∧
      (o.1 = Phase.launching →
        o.2.m_xwaylandProcess.isSome = true ∧ o.2.m_app.x11Connection = none) ∧
      (o.1 = Phase.live →
        o.2.m_xwaylandProcess.isSome = true ∧ o.2.m_app.x11Connection.isSome = true) ∧
      (o.1 = Phase.stopped →
        o.2.m_xwaylandProcess = none ∧ o.2.m_app.x11Connection = none) :=
  ⟨by decide, connection_iff_process_across_cycles [okCycle, okCycle] (by decide)⟩

/-- C4, as stated, fails: after a call of `start` in which every step succeeds, from
the initial state, the process handle exists and the X11 connection is null. -/
theorem connection_iff_process_fails_after_start :
    okStart.succeeds = true ∧
    (Xwayland.start okStart Xwayland.initial).1.m_xwaylandProcess.isSome = true ∧
    (Xwayland.start okStart Xwayland.initial).1.m_app.x11Connection = none ∧
    ¬ ((Xwayland.start okStart Xwayland.initial).1.m_app.x11Connection.isSome = true ↔
      (Xwayland.start okStart Xwayland.initial).1.m_xwaylandProcess.isSome = true) := by
  decide

/-! ## Theorems: the connection at startup and at teardown -/

/-- The run of `stop`, effect by effect. -/
theorem stop_effects (finishedInTime : Bool) (s : Xwayland) :
    (Xwayland.stop finishedInTime s).effects =
      match s.m_xwaylandProcess with
      | none => []
      | some p =>
        [Effect.disconnectAboutToBlock, Effect.disconnectAwake, Effect.deleteSocketNotifier,
          Effect.deleteDataBridge]
        ++ (match s.m_app.x11Connection with
            | none => []
            | some c =>
              [Effect.emit Signal.x11ConnectionAboutToBeDestroyed,
                Effect.setInputFocus XCB_INPUT_FOCUS_POINTER_ROOT,
                Effect.destroyAtoms, Effect.removeNativeX11EventFilter, Effect.xcb_disconnect c,
                Effect.setX11Connection none, Effect.setX11DefaultScreen none,
                Effect.setX11ScreenNumber (-1), Effect.setX11RootWindow XCB_WINDOW_NONE,
                Effect.emit Signal.x11ConnectionChanged])
        ++ (if p.state = ProcessState.NotRunning then []
            else [Effect.disconnectProcess, Effect.terminate, Effect.waitForFinished 5000])
        ++ [Effect.deleteProcess, Effect.destroyXWaylandConnection] := by
  cases h : s.m_xwaylandProcess with
  | none => simp [Xwayland.stop, Run.effects, Run.ret, h]
  | some p =>
    cases hc : s.m_app.x11Connection <;> by_cases hp : p.state = ProcessState.NotRunning <;>
      simp [Xwayland.stop, Xwayland.uninstallSocketNotifier, Xwayland.destroyX11Connection,
        Run.effects, Run.act, Run.call, Run.ret, h, hc, hp]

/-- The signals emitted by `stop` while a process handle and a connection exist. -/
theorem stop_emitted (finishedInTime : Bool) (s : Xwayland) (p : Process)
    (c : xcb_connection_t) (hp : s.m_xwaylandProcess = some p)
    (hc : s.m_app.x11Connection = some c) :
    ∃ before after : Xwayland,
      (Xwayland.stop finishedInTime s).emitted =
        [(Signal.x11ConnectionAboutToBeDestroyed, before), (Signal.x11ConnectionChanged, after)] ∧
      before.m_app.x11Connection = some c ∧
      after.m_app.x11Connection = none ∧
      after.m_app.x11DefaultScreen = none ∧
      after.m_app.x11RootWindow = XCB_WINDOW_NONE ∧
      after.m_app.x11ScreenNumber = -1 := by
  by_cases hs : p.state = ProcessState.NotRunning <;>
    simp [Xwayland.stop, Xwayland.uninstallSocketNotifier, Xwayland.destroyX11Connection,
      Run.emitted, Run.act, Run.call, Run.ret, hp, hc, hs] <;>
    exact ⟨_, _, ⟨rfl, rfl⟩, hc, rfl, rfl, rfl, rfl⟩

/-- The two null tests on the way of a connect result: when `createX11Connection` is
given null, it returns the state it was given, having emitted no signal; and
`continueStartupWithX`, when no X11 connection is set before the call, then emits
`criticalError` once and does nothing else. -/
theorem continueStartupWithX_of_null (env : StartupEnv) (s : Xwayland)
    (hfail : env.connection = none) :
    (Xwayland.createX11Connection env.connection env.atoms s).1 = s ∧
    (Xwayland.createX11Connection env.connection env.atoms s).signals = [] ∧
    (s.m_app.x11Connection = none →
      (Xwayland.continueStartupWithX env s).1 = s ∧
      (Xwayland.continueStartupWithX env s).signals = [Signal.criticalError 1] ∧
      (Xwayland.continueStartupWithX env s).effects =
        [Effect.xcb_connect_to_fd s.m_xcbConnectionFd, Effect.emit (Signal.criticalError 1)]) := by
  refine ⟨?_, ?_, ?_⟩
  · simp [Xwayland.createX11Connection, Run.act, Run.ret, hfail]
  · simp [Xwayland.createX11Connection, Run.signals, Run.effects, Run.act, Run.ret, hfail]
  · intro hx
    simp [Xwayland.continueStartupWithX, Xwayland.createX11Connection, Run.signals,
      Run.effects, Run.act, Run.call, Run.ret, hfail, hx]

/-- C11, as the code has it: a connect that fails is not noticed. The object that
`xcb_connect_to_fd` yields then is in an error state and not null, so it passes the
null test of `createX11Connection`, which sets it as the application's X11 connection
and emits `x11ConnectionChanged`; `continueStartupWithX` then finds a connection set,
emits no `criticalError` and goes on with the startup: it claims WM_S0, constructs the
data bridge and emits `started`. -/
theorem continueStartupWithX_misses_failed_connect :
    failedEnv.connection = some failedConnection ∧
    failedConnection.has_error ≠ 0 ∧
    Op.receivableAt (Op.displayRead ['1', '\n'] failedEnv) launchingSession = true ∧
    launchingSession.m_app.x11Connection = none ∧
    (Xwayland.createX11Connection failedEnv.connection failedEnv.atoms
        launchingSession).1.m_app.x11Connection = some failedConnection ∧
    (Xwayland.createX11Connection failedEnv.connection failedEnv.atoms
        launchingSession).signals = [Signal.x11ConnectionChanged] ∧
    (Xwayland.continueStartupWithX failedEnv launchingSession).criticalErrors = [] ∧
    (Xwayland.continueStartupWithX failedEnv launchingSession).signals
      = [Signal.x11ConnectionChanged, Signal.started] ∧
    (Xwayland.continueStartupWithX failedEnv launchingSession).effects =
      [Effect.xcb_connect_to_fd 5, Effect.setX11Connection (some failedConnection),
        Effect.setX11DefaultScreen (some { root := 1 }), Effect.setX11ScreenNumber 0,
        Effect.setX11RootWindow 1, Effect.createAtoms, Effect.installNativeX11EventFilter,
        Effect.newSocketNotifier (-1), Effect.connectAboutToBlock, Effect.connectAwake,
        Effect.emit Signal.x11ConnectionChanged,
        Effect.claim "WM_S0" 1 true, Effect.newDataBridge,
        Effect.setProcessStartupEnvironment, Effect.emit Signal.started, Effect.sync,
        Effect.destroySelectionOwner "WM_S0"] ∧
    (Xwayland.continueStartupWithX failedEnv launchingSession).1.m_dataBridge ≠ none := by
  decide

/-- C12: for every exit code, the handler of the process exit performs exactly the run
of `stop`. When a process handle and a live connection exist, the signals it emits are
`x11ConnectionAboutToBeDestroyed`, emitted while the connection is still set, and then
`x11ConnectionChanged`, emitted when the connection and the default screen are null,
the root window is none and the screen number is -1; no other signal is emitted. -/
theorem handleXwaylandFinished_is_stop (exitCode : Int) (finishedInTime : Bool)
    (s : Xwayland) :
    Xwayland.handleXwaylandFinished exitCode finishedInTime s
      = Xwayland.stop finishedInTime s ∧
    (∀ p c, s.m_xwaylandProcess = some p → s.m_app.x11Connection = some c →
      ∃ before after : Xwayland,
        (Xwayland.handleXwaylandFinished exitCode finishedInTime s).emitted =
          [(Signal.x11ConnectionAboutToBeDestroyed, before),
            (Signal.x11ConnectionChanged, after)] ∧
        before.m_app.x11Connection = some c ∧
        after.m_app.x11Connection = none ∧
        after.m_app.x11DefaultScreen = none ∧
        after.m_app.x11RootWindow = XCB_WINDOW_NONE ∧
        after.m_app.x11ScreenNumber = -1) :=
  ⟨rfl, fun p c hp hc => stop_emitted finishedInTime s p c hp hc⟩

theorem handleXwaylandFinished_is_stop_witness :
    ∃ before after : Xwayland,
      (Xwayland.handleXwaylandFinished 139 true liveSession).emitted =
        [(Signal.x11ConnectionAboutToBeDestroyed, before),
          (Signal.x11ConnectionChanged, after)] ∧
      before.m_app.x11Connection = some { fd := 5, screen := { root := 42 } } ∧
      after.m_app.x11Connection = none ∧
      after.m_app.x11DefaultScreen = none ∧
      after.m_app.x11RootWindow = XCB_WINDOW_NONE ∧
      after.m_app.x11ScreenNumber = -1 :=
  (handleXwaylandFinished_is_stop 139 true liveSession).2 liveProcess
    { fd := 5, screen := { root := 42 } } (by decide) (by decide)

/-- C14: when a connection is set and reports a non-zero error code, `dispatchEvents`
performs exactly the run of `stop`: no event is forwarded to the native event filters
or freed, and the connection is not flushed. -/
theorem dispatchEvents_on_error_is_stop (connectionError : Int)
    (queue : List xcb_generic_event_t) (finishedInTime : Bool) (s : Xwayland)
    (c : xcb_connection_t) (hc : s.m_app.x11Connection = some c)
    (herr : connectionError ≠ 0) :
    Xwayland.dispatchEvents connectionError queue finishedInTime s
      = Xwayland.stop finishedInTime s ∧
    (∀ event, Effect.filterNativeEvent event ∉
      (Xwayland.dispatchEvents connectionError queue finishedInTime s).effects) ∧
    (∀ event, Effect.free event ∉
      (Xwayland.dispatchEvents connectionError queue finishedInTime s).effects) ∧
    (∀ c', Effect.xcb_flush c' ∉
      (Xwayland.dispatchEvents connectionError queue finishedInTime s).effects) := by
  have h : Xwayland.dispatchEvents connectionError queue finishedInTime s
      = Xwayland.stop finishedInTime s := by
    simp [Xwayland.dispatchEvents, hc, herr]
  rw [h, stop_effects, hc]
  refine ⟨rfl, ?_, ?_, ?_⟩ <;> intro x <;> cases s.m_xwaylandProcess <;> simp

theorem dispatchEvents_on_error_is_stop_witness :
    Xwayland.dispatchEvents 1 [⟨35, 7⟩, ⟨36, 8⟩] false liveSession
      = Xwayland.stop false liveSession :=
  (dispatchEvents_on_error_is_stop 1 [⟨35, 7⟩, ⟨36, 8⟩] false liveSession
    { fd := 5, screen := { root := 42 } } (by decide) (by decide)).1

/-! ## Theorems: draining the events -/

/-- The loop of `dispatchEvents` runs while the poll returns an event. -/
theorem drainEvents_poll (queue : List xcb_generic_event_t) (r : Run) :
    Xwayland.drainEvents queue r =
      match xcb_poll_for_event queue with
      | (none, _) => r
      | (some event, rest) =>
        Xwayland.drainEvents rest
          ((r.act (Effect.filterNativeEvent event) id).act (Effect.free event) id) := by
  cases queue <;> rfl

/-- The loop of `dispatchEvents` leaves the state as it is and forwards and frees the
events one after the other. -/
theorem drainEvents_run (queue : List xcb_generic_event_t) :
    ∀ r : Run, (Xwayland.drainEvents queue r).1 = r.1 ∧
      (Xwayland.drainEvents queue r).effects = r.effects ++
        queue.flatMap (fun event => [Effect.filterNativeEvent event, Effect.free event]) := by
  induction queue with
  | nil => intro r; simp [Xwayland.drainEvents]
  | cons event rest ih =>
    intro r
    obtain ⟨h1, h2⟩ := ih ((r.act (Effect.filterNativeEvent event) id).act (Effect.free event) id)
    constructor
    · rw [Xwayland.drainEvents, h1]; rfl
    · rw [Xwayland.drainEvents, h2]
      simp [Run.effects, Run.act]

/-- The events forwarded by a drain followed by a flush are the queue. -/
theorem forwarded_events (queue : List xcb_generic_event_t) (c : xcb_connection_t) :
    (queue.flatMap (fun event => [Effect.filterNativeEvent event, Effect.free event])
        ++ [Effect.xcb_flush c]).filterMap
      (fun e => match e with
        | Effect.filterNativeEvent event => some event
        | _ => none) = queue := by
  induction queue with
  | nil => simp
  | cons event rest ih => simpa using ih

/-- C15: when a connection is set and reports no error, `dispatchEvents` drains the
queue of pending events, whatever its length: its effects are, for each event in
arrival order, the forwarding to the native event filters and the release of the
event, followed by one flush of the connection; the events forwarded are exactly the
queue; the loop runs while the poll returns an event; the state is unchanged. -/
theorem dispatchEvents_drains_queue (connectionError : Int)
    (queue : List xcb_generic_event_t) (finishedInTime : Bool) (s : Xwayland)
    (c : xcb_connection_t) (hc : s.m_app.x11Connection = some c)
    (herr : connectionError = 0) :
    (Xwayland.dispatchEvents connectionError queue finishedInTime s).effects =
      queue.flatMap (fun event => [Effect.filterNativeEvent event, Effect.free event])
        ++ [Effect.xcb_flush c] ∧
    (Xwayland.dispatchEvents connectionError queue finishedInTime s).effects.filterMap
      (fun e => match e with
        | Effect.filterNativeEvent event => some event
        | _ => none) = queue ∧
    (Xwayland.dispatchEvents connectionError queue finishedInTime s).1 = s ∧
    (∀ r : Run, Xwayland.drainEvents queue r =
      match xcb_poll_for_event queue with
      | (none, _) => r
      | (some event, rest) =>
        Xwayland.drainEvents rest
          ((r.act (Effect.filterNativeEvent event) id).act (Effect.free event) id)) := by
  have h1 : (Xwayland.drainEvents queue (s, [])).1 = s := (drainEvents_run queue (s, [])).1
  have h2 : List.map Prod.fst (Xwayland.drainEvents queue (s, [])).2 =
      queue.flatMap (fun event => [Effect.filterNativeEvent event, Effect.free event]) := by
    have h := (drainEvents_run queue (s, [])).2
    simpa [Run.effects] using h
  have heff : (Xwayland.dispatchEvents connectionError queue finishedInTime s).effects =
      queue.flatMap (fun event => [Effect.filterNativeEvent event, Effect.free event])
        ++ [Effect.xcb_flush c] := by
    simp [Xwayland.dispatchEvents, hc, herr, Run.effects, Run.act, Run.ret, h2]
  refine ⟨heff, ?_, ?_, drainEvents_poll queue⟩
  · rw [heff]
    exact forwarded_events queue c
  · simp [Xwayland.dispatchEvents, hc, herr, Run.act, Run.ret, h1]

theorem dispatchEvents_drains_queue_witness :
    (Xwayland.dispatchEvents 0 [⟨35, 7⟩, ⟨36, 8⟩] false liveSession).effects =
      [Effect.filterNativeEvent ⟨35, 7⟩, Effect.free ⟨35, 7⟩,
        Effect.filterNativeEvent ⟨36, 8⟩, Effect.free ⟨36, 8⟩,
        Effect.xcb_flush { fd := 5, screen := { root := 42 } }] :=
  (dispatchEvents_drains_queue 0 [⟨35, 7⟩, ⟨36, 8⟩] false liveSession
    { fd := 5, screen := { root := 42 } } (by decide) rfl).1

/-! ## Theorems: the successful startup -/

/-- C17: on a successful connect, `createX11Connection` emits `x11ConnectionChanged` once,
as its last effect and as its only signal, in the state it returns: there the
connection, the default screen, the screen number 0 and the root window are set, the
atoms are created, the native event filter is installed, and the socket notifier and
the two dispatcher hooks are installed. -/
theorem createX11Connection_publishes_last (c : xcb_connection_t) (atoms : Atoms)
    (s : Xwayland) :
    ∃ seen : Xwayland,
      (Xwayland.createX11Connection (some c) atoms s).2.getLast?
        = some (Effect.emit Signal.x11ConnectionChanged, seen) ∧
      (Xwayland.createX11Connection (some c) atoms s).signals
        = [Signal.x11ConnectionChanged] ∧
      (Xwayland.createX11Connection (some c) atoms s).1 = seen ∧
      seen.m_app.x11Connection = some c ∧
      seen.m_app.x11DefaultScreen = some c.screen ∧
      seen.m_app.x11ScreenNumber = 0 ∧
      seen.m_app.x11RootWindow = c.screen.root ∧
      seen.m_app.atoms = some atoms ∧
      seen.m_app.nativeX11EventFilter = true ∧
      seen.m_socketNotifier = some c.fd ∧
      seen.aboutToBlock = true ∧
      seen.awake = true := by
  simp [Xwayland.createX11Connection, Xwayland.installSocketNotifier, Run.signals,
    Run.effects, Run.act, Run.call, Run.ret]

/-- C18, as the code has it: when the connect succeeds, `continueStartupWithX` performs,
after the effects of `createX11Connection`: the forced claim of WM_S0 on the root window
of the connection, the construction of the data bridge, the update of the process
startup environment with `DISPLAY`, the emission of `started`, the synchronisation as
its last statement, and then, as it returns, the destruction of the local selection
owner that made the claim, which is the last effect. The data bridge is set afterwards,
`started` is emitted once and no `criticalError` is emitted. -/
theorem continueStartupWithX_order (env : StartupEnv) (s : Xwayland) (c : xcb_connection_t)
    (h : env.connection = some c) :
    (Xwayland.continueStartupWithX env s).effects =
      (Xwayland.createX11Connection env.connection env.atoms s).effects ++
        [Effect.claim "WM_S0" c.screen.root true, Effect.newDataBridge,
          Effect.setProcessStartupEnvironment, Effect.emit Signal.started, Effect.sync,
          Effect.destroySelectionOwner "WM_S0"] ∧
    (Xwayland.continueStartupWithX env s).1.m_dataBridge
      = some (DataBridge.new env.server (some env.atoms) env.published) ∧
    (Xwayland.continueStartupWithX env s).1.m_app.processStartupEnvironment
      = s.m_app.processStartupEnvironment.insert "DISPLAY"
          (QString.fromUtf8 (s.DISPLAY.getD [])) ∧
    (Xwayland.continueStartupWithX env s).signals
      = [Signal.x11ConnectionChanged, Signal.started] ∧
    (Xwayland.continueStartupWithX env s).criticalErrors = [] := by
  simp [Xwayland.continueStartupWithX, Xwayland.createX11Connection,
    Xwayland.installSocketNotifier, Run.criticalErrors, Run.signals, Run.effects, Run.act,
    Run.call, Run.ret, h]

theorem continueStartupWithX_order_witness :
    (Xwayland.continueStartupWithX okEnv launchingSession).effects =
      [Effect.xcb_connect_to_fd 5,
        Effect.setX11Connection (some { fd := 5, screen := { root := 42 } }),
        Effect.setX11DefaultScreen (some { root := 42 }), Effect.setX11ScreenNumber 0,
        Effect.setX11RootWindow 42, Effect.createAtoms, Effect.installNativeX11EventFilter,
        Effect.newSocketNotifier 5, Effect.connectAboutToBlock, Effect.connectAwake,
        Effect.emit Signal.x11ConnectionChanged,
        Effect.claim "WM_S0" 42 true, Effect.newDataBridge,
        Effect.setProcessStartupEnvironment, Effect.emit Signal.started, Effect.sync,
        Effect.destroySelectionOwner "WM_S0"] :=
  (continueStartupWithX_order okEnv launchingSession { fd := 5, screen := { root := 42 } }
    rfl).1

/-- C18, as stated, fails: after a successful connect the synchronisation is not the
last effect of `continueStartupWithX`; the destruction of the local selection owner of
WM_S0 comes after it. -/
theorem continueStartupWithX_sync_is_not_last :
    okEnv.connection = some { fd := 5, screen := { root := 42 } } ∧
    (Xwayland.continueStartupWithX okEnv launchingSession).effects.getLast?
      = some (Effect.destroySelectionOwner "WM_S0") ∧
    (Xwayland.continueStartupWithX okEnv launchingSession).effects.getLast?
      ≠ some Effect.sync ∧
    (Xwayland.continueStartupWithX okEnv launchingSession).effects.dropLast.getLast?
      = some Effect.sync := by
  decide

/-! ## Theorems: the bounded wait -/

/-- C19: the outcome of the wait of 5000 ms makes no difference to `stop`: with either
outcome it performs the same effects and ends in the same state, and it emits no
`criticalError`. When a process handle exists, it ends with the process handle, the
data bridge, the socket notifier and the X11 connection null and the compositor-side
Xwayland connection destroyed. -/
theorem stop_wait_outcome_irrelevant (s : Xwayland) :
    (Xwayland.stop true s).1 = (Xwayland.stop false s).1 ∧
    (Xwayland.stop true s).effects = (Xwayland.stop false s).effects ∧
    (∀ finishedInTime, (Xwayland.stop finishedInTime s).criticalErrors = []) ∧
    (∀ finishedInTime p, s.m_xwaylandProcess = some p →
      (Xwayland.stop finishedInTime s).1.m_xwaylandProcess = none ∧
      (Xwayland.stop finishedInTime s).1.m_dataBridge = none ∧
      (Xwayland.stop finishedInTime s).1.m_socketNotifier = none ∧
      (Xwayland.stop finishedInTime s).1.m_app.x11Connection = none ∧
      (Xwayland.stop finishedInTime s).1.xwaylandConnection = false) := by
  refine ⟨?_, ?_, ?_, ?_⟩
  · cases h : s.m_xwaylandProcess with
    | none => simp [Xwayland.stop, h]
    | some p =>
      cases hc : s.m_app.x11Connection <;> by_cases hp : p.state = ProcessState.NotRunning <;>
        simp [Xwayland.stop, Xwayland.uninstallSocketNotifier, Xwayland.destroyX11Connection,
          Run.act, Run.call, Run.ret, h, hc, hp]
  · rw [stop_effects, stop_effects]
  · intro b
    have h := stop_effects b s
    unfold Run.criticalErrors Run.signals
    rw [h]
    cases s.m_xwaylandProcess with
    | none => simp
    | some p =>
      cases s.m_app.x11Connection <;> by_cases hp : p.state = ProcessState.NotRunning <;>
        simp [hp]
  · intro b p h
    cases hc : s.m_app.x11Connection <;> by_cases hp : p.state = ProcessState.NotRunning <;>
      cases b <;>
      simp [Xwayland.stop, Xwayland.uninstallSocketNotifier, Xwayland.destroyX11Connection,
        Run.act, Run.call, Run.ret, h, hc, hp]

theorem stop_wait_outcome_irrelevant_witness :
    (Xwayland.stop false liveSession).1.m_xwaylandProcess = none ∧
    (Xwayland.stop false liveSession).1.m_dataBridge = none ∧
    (Xwayland.stop false liveSession).1.m_socketNotifier = none ∧
    (Xwayland.stop false liveSession).1.m_app.x11Connection = none ∧
    (Xwayland.stop false liveSession).1.xwaylandConnection = false :=
  (stop_wait_outcome_irrelevant liveSession).2.2.2 false liveProcess (by decide)

/-! ## Theorems: the display number -/

theorem digitChar_ne_nul : ∀ k, k < 10 → Nat.digitChar k ≠ Char.ofNat 0 := by
  decide

theorem toDigitsCore_no_nul (fuel : Nat) :
    ∀ (n : Nat) (ds : List Char), (∀ c ∈ ds, c ≠ Char.ofNat 0) →
      ∀ c ∈ Nat.toDigitsCore 10 fuel n ds, c ≠ Char.ofNat 0 := by
  induction fuel with
  | zero => intro n ds h; simpa [Nat.toDigitsCore] using h
  | succ fuel ih =>
    intro n ds h
    have hd : ∀ c ∈ Nat.digitChar (n % 10) :: ds, c ≠ Char.ofNat 0 := by
      intro c hc
      rcases List.mem_cons.mp hc with rfl | hc
      · exact digitChar_ne_nul _ (Nat.mod_lt _ (by decide))
      · exact h c hc
    simp only [Nat.toDigitsCore]
    split
    · exact hd
    · exact ih _ _ hd

/-- The decimal text of a number has no NUL byte. -/
theorem decimal_no_nul (n : Nat) : ∀ c ∈ (toString n).toList, c ≠ Char.ofNat 0 :=
  toDigitsCore_no_nul (n + 1) n [] (by simp)

/-- The value `readDisplay` exports for a line without NUL byte that ends in one more
byte. -/
theorem readDisplay_of_line (text : QByteArray) (last : Char)
    (h : ∀ c ∈ text, c ≠ Char.ofNat 0) :
    readDisplay (text ++ [last]) = ':' :: text := by
  have hlen : ((':' :: (text ++ [last])).length : Int) - 1 = ((text.length + 1 : Nat) : Int) := by
    simp
  have hrem : QByteArray.remove (':' :: (text ++ [last]))
      (((':' :: (text ++ [last])).length : Int) - 1) 1 = ':' :: text := by
    rw [hlen]
    unfold QByteArray.remove
    have h1 : ¬ ((1 : Int) ≤ 0 ∨ ((text.length + 1 : Nat) : Int) < 0 ∨
        ((':' :: (text ++ [last])).length : Int) ≤ ((text.length + 1 : Nat) : Int)) := by
      simp
      omega
    rw [if_neg h1]
    simp [List.take_append_eq_append_take, List.drop_append_eq_append_drop]
  unfold readDisplay
  simp only [hrem]
  unfold QByteArray.constData
  rw [List.takeWhile_eq_self_iff]
  intro c hc
  rcases List.mem_cons.mp hc with rfl | hc
  · decide
  · simpa using h c hc

theorem continueStartupWithX_keeps_DISPLAY (env : StartupEnv) (s : Xwayland) :
    (Xwayland.continueStartupWithX env s).1.DISPLAY = s.DISPLAY := by
  cases hconn : env.connection <;> cases hx : s.m_app.x11Connection <;>
    simp [Xwayland.continueStartupWithX, Xwayland.createX11Connection,
      Xwayland.installSocketNotifier, Run.act, Run.call, Run.ret, hconn, hx]

/-- C16: for every display number n, when the line read from the pipe is the decimal
text of n followed by a newline, the value `readDisplay` exports as `DISPLAY` is a
colon followed by the decimal text of n; for the line "1\n" it is ":1". It is the
value of `DISPLAY` once the pending read has ended. -/
theorem readDisplay_decimal (n : Nat) :
    readDisplay ((toString n).toList ++ ['\n']) = ':' :: (toString n).toList ∧
    readDisplay ['1', '\n'] = [':', '1'] ∧
    (∀ (env : StartupEnv) (s : Xwayland), s.futureWatchers ≠ [] →
      (Xwayland.step (Op.displayRead ((toString n).toList ++ ['\n']) env) s).1.DISPLAY
        = some (':' :: (toString n).toList)) := by
  have h := readDisplay_of_line (toString n).toList '\n' (decimal_no_nul n)
  refine ⟨h, by decide, ?_⟩
  intro env s hw
  cases hf : s.futureWatchers with
  | nil => exact absurd hf hw
  | cons w ws =>
    simp only [Xwayland.step, hf]
    rw [continueStartupWithX_keeps_DISPLAY, h]

theorem readDisplay_decimal_witness :
    (Xwayland.step (Op.displayRead ((toString 12).toList ++ ['\n']) okEnv)
        launchingSession).1.DISPLAY
      = some (':' :: (toString 12).toList) :=
  (readDisplay_decimal 12).2.2 okEnv launchingSession (by decide)

/-! ## Theorems: the registration of the data device -/

/-- The lambda connected to `dataDeviceCreated`, by whether it runs up to `init()`. -/
theorem dataDeviceCreated_eq (server : WaylandServer) (atoms : Option Atoms)
    (b : DataBridge) (d : DataDeviceInterface) :
    b.dataDeviceCreated server atoms d =
      if b.accepts server d = true then
        DataBridge.init atoms { b with dc := false, m_dataDeviceInterface := some d }
      else b := by
  cases hdc : b.dc <;> cases hi : b.m_dataDeviceInterface <;>
    by_cases hcl : d.client = server.internalConnection <;>
    simp [DataBridge.dataDeviceCreated, DataBridge.accepts, hdc, hi, hcl]

/-- Once the connection made in the constructor is gone, notifications change nothing
and `init()` is not run. -/
theorem notified_of_disconnected (server : WaylandServer) (atoms : Option Atoms)
    (announced : List DataDeviceInterface) :
    ∀ b : DataBridge, b.dc = false →
      announced.foldl (DataBridge.dataDeviceCreated server atoms) b = b ∧
      DataBridge.initRuns server atoms b announced = [] := by
  induction announced with
  | nil => intro b _; simp [DataBridge.initRuns]
  | cons d rest ih =>
    intro b hb
    have hstep : b.dataDeviceCreated server atoms d = b := by
      simp [DataBridge.dataDeviceCreated, hb]
    have hacc : b.accepts server d = false := by
      simp [DataBridge.accepts, hb]
    obtain ⟨h1, h2⟩ := ih b hb
    simp [DataBridge.initRuns, hstep, hacc, h1, h2]

/-- The notifications received by a bridge that is still waiting for its data device:
the first one for a device of the internal connection registers it and runs `init()`. -/
theorem notified_of_pending (server : WaylandServer) (atoms : Option Atoms)
    (announced : List DataDeviceInterface) :
    ∀ b : DataBridge, b.dc = true → b.m_dataDeviceInterface = none →
      announced.foldl (DataBridge.dataDeviceCreated server atoms) b =
        (match announced.find? (fun d => d.client == server.internalConnection) with
          | none => b
          | some d =>
            DataBridge.init atoms { b with dc := false, m_dataDeviceInterface := some d }) ∧
      DataBridge.initRuns server atoms b announced =
        (announced.find? (fun d => d.client == server.internalConnection)).toList := by
  induction announced with
  | nil => intro b _ _; simp [DataBridge.initRuns]
  | cons d rest ih =>
    intro b hdc hi
    by_cases hcl : d.client = server.internalConnection
    · have hacc : b.accepts server d = true := by
        simp [DataBridge.accepts, hdc, hi, hcl]
      have hstep := dataDeviceCreated_eq server atoms b d
      rw [if_pos hacc] at hstep
      obtain ⟨h1, h2⟩ := notified_of_disconnected server atoms rest
        (DataBridge.init atoms { b with dc := false, m_dataDeviceInterface := some d }) rfl
      simp [DataBridge.initRuns, hstep, hacc, h1, h2, hcl]
    · have hacc : b.accepts server d = false := by
        simp [DataBridge.accepts, hcl]
      have hstep := dataDeviceCreated_eq server atoms b d
      rw [hacc] at hstep
      simp only [Bool.false_eq_true, if_false] at hstep
      obtain ⟨h1, h2⟩ := ih b hdc hi
      simp [DataBridge.initRuns, hstep, hacc, h1, h2, hcl]

/-- C20: the registration of the server-side data device is one-shot. For every
sequence of `dataDeviceCreated` notifications received by a new bridge, `init()` runs
at the first notification for a device of the internal connection and at no other, so
at most once; that device is stored as `m_dataDeviceInterface`; a notification for a
device of another client changes nothing, and after the registration no notification
changes anything. The clipboard channel and the drag-and-drop channel exist exactly
when `m_dataDeviceInterface` is set. -/
theorem dataDevice_registration_one_shot (server : WaylandServer) (atoms : Option Atoms)
    (announced : List DataDeviceInterface) :
    DataBridge.initRuns server atoms (DataBridge.new server atoms []) announced =
      (announced.find? (fun d => d.client == server.internalConnection)).toList ∧
    (DataBridge.initRuns server atoms (DataBridge.new server atoms []) announced).length ≤ 1 ∧
    (DataBridge.new server atoms announced).m_dataDeviceInterface =
      announced.find? (fun d => d.client == server.internalConnection) ∧
    (∀ (b : DataBridge) (d : DataDeviceInterface), d.client ≠ server.internalConnection →
      b.dataDeviceCreated server atoms d = b) ∧
    (∀ later : List DataDeviceInterface,
      (DataBridge.new server atoms announced).m_dataDeviceInterface.isSome = true →
      later.foldl (DataBridge.dataDeviceCreated server atoms)
        (DataBridge.new server atoms announced) = DataBridge.new server atoms announced) ∧
    (DataBridge.new server atoms announced).m_clipboard.isSome =
      (DataBridge.new server atoms announced).m_dataDeviceInterface.isSome ∧
    (DataBridge.new server atoms announced).m_dnd.isSome =
      (DataBridge.new server atoms announced).m_dataDeviceInterface.isSome := by
  obtain ⟨hnew, hruns⟩ := notified_of_pending server atoms announced
    (DataBridge.new server atoms []) rfl rfl
  have hnew' : DataBridge.new server atoms announced =
      (match announced.find? (fun d => d.client == server.internalConnection) with
        | none => DataBridge.new server atoms []
        | some d =>
          DataBridge.init atoms
            { DataBridge.new server atoms [] with
              dc := false, m_dataDeviceInterface := some d }) := hnew
  refine ⟨hruns, ?_, ?_, ?_, ?_, ?_, ?_⟩
  · rw [hruns]
    cases announced.find? (fun d => d.client == server.internalConnection) <;> simp
  · rw [hnew']
    cases announced.find? (fun d => d.client == server.internalConnection) <;>
      simp [DataBridge.new, DataBridge.init]
  · intro b d hd
    have hacc : b.accepts server d = false := by simp [DataBridge.accepts, hd]
    rw [dataDeviceCreated_eq, hacc]
    simp
  · intro later
    rw [hnew']
    cases announced.find? (fun d => d.client == server.internalConnection) with
    | none => simp [DataBridge.new]
    | some d =>
      intro _
      exact (notified_of_disconnected server atoms later _ rfl).1
  · rw [hnew']
    cases announced.find? (fun d => d.client == server.internalConnection) <;>
      simp [DataBridge.new, DataBridge.init]
  · rw [hnew']
    cases announced.find? (fun d => d.client == server.internalConnection) <;>
      simp [DataBridge.new, DataBridge.init]

theorem dataDevice_registration_one_shot_witness :
    DataBridge.initRuns okEnv.server (some okEnv.atoms) (DataBridge.new okEnv.server
        (some okEnv.atoms) []) [⟨1, 5⟩, ⟨2, 77⟩, ⟨3, 77⟩] = [⟨2, 77⟩] ∧
    DataBridge.dataDeviceCreated okEnv.server (some okEnv.atoms) pendingBridge ⟨1, 5⟩
      = pendingBridge ∧
    [⟨3, 77⟩, ⟨4, 5⟩].foldl (DataBridge.dataDeviceCreated okEnv.server (some okEnv.atoms))
      readyBridge = readyBridge :=
  ⟨(dataDevice_registration_one_shot okEnv.server (some okEnv.atoms)
      [⟨1, 5⟩, ⟨2, 77⟩, ⟨3, 77⟩]).1,
    (dataDevice_registration_one_shot okEnv.server (some okEnv.atoms) []).2.2.2.1
      pendingBridge ⟨1, 5⟩ (by decide),
    (dataDevice_registration_one_shot okEnv.server (some okEnv.atoms)
      okEnv.published).2.2.2.2.1 [⟨3, 77⟩, ⟨4, 5⟩] (by decide)⟩

/-! ## Theorems: the signals of a session -/

theorem foldl_step (ops : List Op) :
    ∀ r : Run, ops.foldl (fun r op => r.call (Xwayland.step op)) r =
      ((Xwayland.run ops r.1).1, r.2 ++ (Xwayland.run ops r.1).2) := by
  induction ops with
  | nil => intro r; simp [Xwayland.run, Run.ret]
  | cons op rest ih =>
    intro r
    simp only [Xwayland.run, List.foldl_cons]
    rw [ih (r.call (Xwayland.step op)), ih ((Run.ret r.1).call (Xwayland.step op))]
    simp [Run.call, Run.ret, Xwayland.run]

/-- A run of steps is the first step followed by the run of the others. -/
theorem run_cons (op : Op) (ops : List Op) (s : Xwayland) :
    Xwayland.run (op :: ops) s = (Xwayland.step op s).call (Xwayland.run ops) := by
  simp only [Xwayland.run, List.foldl_cons]
  rw [foldl_step]
  simp [Run.call, Run.ret, Xwayland.run]

theorem connectionSignals_call (r : Run) (f : Xwayland → Run) :
    (r.call f).connectionSignals = r.connectionSignals ++ (f r.1).connectionSignals := by
  simp [Run.connectionSignals, Run.emitted, Run.call]

theorem start_connectionSignals (os : StartEnv) (s : Xwayland) :
    (Xwayland.start os s).connectionSignals = [] := by
  obtain ⟨pipe, socketpair, dupSx, waylandSocket, dupWaylandSocket⟩ := os
  cases pipe <;> cases socketpair <;> by_cases h1 : dupSx < 0 <;>
    by_cases h2 : waylandSocket = -1 <;> by_cases h3 : dupWaylandSocket < 0 <;>
    simp [Xwayland.start, Run.connectionSignals, Run.emitted, Run.act, Run.ret, h1, h2, h3]

theorem processStarted_connectionSignals (s : Xwayland) :
    (Xwayland.step Op.processStarted s).connectionSignals = [] := by
  cases hp : s.m_xwaylandProcess with
  | none => simp [Xwayland.step, Run.connectionSignals, Run.emitted, Run.ret, hp]
  | some p =>
    by_cases hs : p.state = ProcessState.Starting <;> cases hc : p.connected <;>
      simp [Xwayland.step, Xwayland.handleXwaylandStarted, Run.connectionSignals, Run.emitted,
        Run.act, Run.ret, hp, hs, hc]

theorem continueStartupWithX_connectionSignals (env : StartupEnv) (s : Xwayland)
    (c : xcb_connection_t) (h : env.connection = some c) :
    (Xwayland.continueStartupWithX env s).connectionSignals
      = [(Signal.x11ConnectionChanged, some c)] := by
  simp [Xwayland.continueStartupWithX, Xwayland.createX11Connection,
    Xwayland.installSocketNotifier, Run.connectionSignals, Run.emitted, Run.act, Run.call,
    Run.ret, h]

theorem displayRead_connectionSignals (line : QByteArray) (env : StartupEnv) (s : Xwayland)
    (c : xcb_connection_t) (h : env.connection = some c) (hw : s.futureWatchers ≠ []) :
    (Xwayland.step (Op.displayRead line env) s).connectionSignals
      = [(Signal.x11ConnectionChanged, some c)] := by
  cases hf : s.futureWatchers with
  | nil => exact absurd hf hw
  | cons w ws =>
    simp only [Xwayland.step, hf]
    exact continueStartupWithX_connectionSignals env _ c h

theorem stop_connectionSignals (finishedInTime : Bool) (s : Xwayland) (p : Process)
    (c : xcb_connection_t) (hp : s.m_xwaylandProcess = some p)
    (hc : s.m_app.x11Connection = some c) :
    (Xwayland.stop finishedInTime s).connectionSignals =
      [(Signal.x11ConnectionAboutToBeDestroyed, some c),
        (Signal.x11ConnectionChanged, none)] := by
  obtain ⟨before, after, he, hb, ha, _⟩ := stop_emitted finishedInTime s p c hp hc
  simp [Run.connectionSignals, he, hb, ha]

/-- A teardown step in a live session emits the two signals of the destruction and
releases the process handle. -/
theorem teardown_connectionSignals (op : Op) (s : Xwayland) (p : Process)
    (c : xcb_connection_t) (ht : op.isTeardown = true) (hp : s.m_xwaylandProcess = some p)
    (hs : p.state = ProcessState.Running) (hcon : p.connected = true)
    (hc : s.m_app.x11Connection = some c) :
    (Xwayland.step op s).connectionSignals =
      [(Signal.x11ConnectionAboutToBeDestroyed, some c),
        (Signal.x11ConnectionChanged, none)] ∧
    (Xwayland.step op s).1.m_xwaylandProcess = none := by
  cases op with
  | start os => simp [Op.isTeardown] at ht
  | processStarted => simp [Op.isTeardown] at ht
  | processError error => simp [Op.isTeardown] at ht
  | displayRead line env => simp [Op.isTeardown] at ht
  | stop b =>
    exact ⟨stop_connectionSignals b s p c hp hc, stop_releases_process b s⟩
  | processFinished exitCode =>
    simp only [Xwayland.step, hp, hs, hcon, if_true, Xwayland.handleXwaylandFinished]
    exact ⟨stop_connectionSignals true _ _ c rfl hc, stop_releases_process true _⟩
  | dispatchEvents connectionError queue b =>
    have herr : connectionError ≠ 0 := by simpa [Op.isTeardown] using ht
    have h : Xwayland.step (Op.dispatchEvents connectionError queue b) s
        = Xwayland.stop b s := by
      simp [Xwayland.step, Xwayland.dispatchEvents, hc, herr]
    rw [h]
    exact ⟨stop_connectionSignals b s p c hp hc, stop_releases_process b s⟩

/-- Calls of `stop` without a process handle do nothing. -/
theorem run_stops_of_no_process (further : List Bool) (s : Xwayland)
    (h : s.m_xwaylandProcess = none) :
    Xwayland.run (further.map Op.stop) s = (s, []) := by
  induction further with
  | nil => rfl
  | cons b rest ih =>
    rw [List.map_cons, run_cons]
    have hstep : Xwayland.step (Op.stop b) s = (s, []) := stop_of_no_process b s h
    rw [hstep]
    simp [Run.call, ih]

/-- C13: in every successful session (a call of `start` whose system calls succeed, the
start of the process, the end of the display-number read with a successful connect,
then a teardown by `stop`, by the exit of the process or by a connection error, then
any number of calls of `stop`), the connection lifecycle signals emitted are exactly
`x11ConnectionChanged` with the connection set, `x11ConnectionAboutToBeDestroyed` with
the connection still set, and `x11ConnectionChanged` with the connection null, in this
order and once each. -/
theorem session_connection_signals (os : StartEnv) (line : QByteArray) (env : StartupEnv)
    (teardown : Op) (further : List Bool) (s : Xwayland) (c : xcb_connection_t)
    (hos : os.succeeds = true) (hconn : env.connection = some c)
    (ht : teardown.isTeardown = true) :
    (Xwayland.run
        ([Op.start os, Op.processStarted, Op.displayRead line env, teardown]
          ++ further.map Op.stop) s).connectionSignals =
      [(Signal.x11ConnectionChanged, some c),
        (Signal.x11ConnectionAboutToBeDestroyed, some c),
        (Signal.x11ConnectionChanged, none)] := by
  obtain ⟨p, h1p, h1s, h1c, h1a⟩ := start_of_succeeds os s hos
  obtain ⟨h2p, h2a, h2w⟩ := processStarted_of_starting (Xwayland.start os s).1 p h1p h1s h1c
  obtain ⟨h3p, h3x⟩ := displayRead_of_pending line env _ c hconn h2w
  rw [h2p] at h3p
  obtain ⟨h4s, h4p⟩ := teardown_connectionSignals teardown _ _ c ht h3p rfl h1c h3x
  have h5 := run_stops_of_no_process further _ h4p
  have hstart : Xwayland.step (Op.start os) s = Xwayland.start os s := rfl
  simp only [List.cons_append, List.nil_append, run_cons, connectionSignals_call, hstart]
  rw [start_connectionSignals, processStarted_connectionSignals,
    displayRead_connectionSignals line env _ c hconn h2w, h4s, h5]
  simp [Run.connectionSignals, Run.emitted]

theorem session_connection_signals_witness :
    (Xwayland.run
        ([Op.start okStart, Op.processStarted, Op.displayRead ['1', '\n'] okEnv,
            Op.processFinished 139] ++ [true, false].map Op.stop)
        Xwayland.initial).connectionSignals =
      [(Signal.x11ConnectionChanged, some { fd := 5, screen := { root := 42 } }),
        (Signal.x11ConnectionAboutToBeDestroyed, some { fd := 5, screen := { root := 42 } }),
        (Signal.x11ConnectionChanged, none)] :=
  session_connection_signals okStart ['1', '\n'] okEnv (Op.processFinished 139) [true, false]
    Xwayland.initial { fd := 5, screen := { root := 42 } } (by decide) rfl (by decide)

/-! ## Theorems: the value of `DISPLAY` -/

/-- The value `readDisplay` exports: the line with a colon in front and without its last
byte, as a C string. -/
theorem readDisplay_eq (line : QByteArray) :
    readDisplay line = QByteArray.constData ((':' :: line).dropLast) := by
  have hrem : QByteArray.remove (':' :: line) (((':' :: line).length : Int) - 1) 1
      = (':' :: line).dropLast := by
    have hlen : ((':' :: line).length : Int) - 1 = ((line.length : Nat) : Int) := by simp
    rw [hlen]
    unfold QByteArray.remove
    have h1 : ¬ ((1 : Int) ≤ 0 ∨ ((line.length : Nat) : Int) < 0 ∨
        ((':' :: line).length : Int) ≤ ((line.length : Nat) : Int)) := by
      simp
    rw [if_neg h1, List.dropLast_eq_take]
    simp
  unfold readDisplay
  simp only [hrem]

/-- C21, as the code has it: `readDisplay` removes the last byte of the line whatever it
is, and exports the result as a C string: the exported value is the line with a colon
in front and without its last byte, up to the first NUL byte. For a line that is not
empty and has no NUL byte before its last byte, it is a colon followed by the line
without its last byte; "12" gives ":1"; the empty line gives the empty string. -/
theorem readDisplay_drops_last_byte (line : QByteArray) :
    readDisplay line
      = ((':' :: line).dropLast).takeWhile (fun c => c != Char.ofNat 0) ∧
    (line ≠ [] → (∀ c ∈ line.dropLast, c ≠ Char.ofNat 0) →
      readDisplay line = ':' :: line.dropLast) ∧
    readDisplay ['1', '2'] = [':', '1'] ∧
    readDisplay [] = [] := by
  refine ⟨readDisplay_eq line, ?_, by decide, by decide⟩
  intro hne h
  rw [readDisplay_eq]
  cases line with
  | nil => exact absurd rfl hne
  | cons b rest =>
    rw [List.dropLast_cons₂]
    unfold QByteArray.constData
    rw [List.takeWhile_eq_self_iff]
    intro c hc
    rcases List.mem_cons.mp hc with rfl | hc
    · decide
    · simpa using h c hc

theorem readDisplay_drops_last_byte_witness :
    readDisplay ['1', '2', '3'] = ':' :: ['1', '2', '3'].dropLast :=
  (readDisplay_drops_last_byte ['1', '2', '3']).2.1 (by decide) (by decide)

/-- C21, as stated, fails: for a line with a NUL byte, the exported value is not the
colon followed by the line without its last byte; it ends before the NUL byte. -/
theorem readDisplay_stops_at_nul :
    readDisplay ['1', Char.ofNat 0, '2', '\n'] = [':', '1'] ∧
    readDisplay ['1', Char.ofNat 0, '2', '\n']
      ≠ ':' :: ['1', Char.ofNat 0, '2', '\n'].dropLast := by
  decide

/-! ## Theorems: the error codes of `start` -/

/-- The run of `start` when a step fails: one `criticalError`, with code 20 for a failed
duplication and 1 otherwise, and the members as they were. -/
theorem start_of_failure (os : StartEnv) (s : Xwayland) (f : StartFailure)
    (h : os.failure = some f) :
    (Xwayland.start os s).criticalErrors = [if f.isDup = true then 20 else 1] ∧
    (Xwayland.start os s).1.m_xcbConnectionFd = s.m_xcbConnectionFd ∧
    (Xwayland.start os s).1.m_displayFileDescriptor = s.m_displayFileDescriptor ∧
    (Xwayland.start os s).1.m_xwaylandProcess = s.m_xwaylandProcess ∧
    (Xwayland.start os s).1.m_socketNotifier = s.m_socketNotifier ∧
    (Xwayland.start os s).1.m_dataBridge = s.m_dataBridge ∧
    (Xwayland.start os s).1.m_app = s.m_app := by
  obtain ⟨pipe, socketpair, dupSx, waylandSocket, dupWaylandSocket⟩ := os
  cases pipe <;> cases socketpair <;> by_cases h1 : dupSx < 0 <;>
    by_cases h2 : waylandSocket = -1 <;> by_cases h3 : dupWaylandSocket < 0 <;>
    simp [StartEnv.failure, h1, h2, h3] at h <;>
    subst h <;>
    simp [Xwayland.start, StartFailure.isDup, Run.criticalErrors, Run.signals, Run.effects,
      Run.act, Run.ret, h1, h2, h3]

/-- The run of `start` when no step fails. -/
theorem start_of_no_failure (os : StartEnv) (s : Xwayland) (h : os.failure = none) :
    (Xwayland.start os s).criticalErrors = [] ∧
    ∃ pipeFds sx p, os.pipe = some pipeFds ∧ os.socketpair = some sx ∧
      (Xwayland.start os s).1.m_xcbConnectionFd = sx.1 ∧
      (Xwayland.start os s).1.m_displayFileDescriptor = pipeFds.1 ∧
      (Xwayland.start os s).1.m_xwaylandProcess = some p := by
  obtain ⟨pipe, socketpair, dupSx, waylandSocket, dupWaylandSocket⟩ := os
  cases pipe <;> cases socketpair <;> by_cases h1 : dupSx < 0 <;>
    by_cases h2 : waylandSocket = -1 <;> by_cases h3 : dupWaylandSocket < 0 <;>
    simp [StartEnv.failure, h1, h2, h3] at h
  simp [Xwayland.start, Run.criticalErrors, Run.signals, Run.effects, Run.act, Run.ret,
    h1, h2, h3]

/-- C22: `start` emits at most one `criticalError`, which tells the step that failed:
code 20 exactly when the first failing step is a duplication of a descriptor (of the
socket-pair end or of the Wayland socket), code 1 exactly when it is the creation of
the pipe, of the socket pair or of the Xwayland connection of the Wayland server, and
none exactly when all five steps succeed. When a step fails the members are as they
were; when none fails `m_xcbConnectionFd` is the first end of the socket pair,
`m_displayFileDescriptor` is the read end of the pipe and a process handle exists. -/
theorem start_critical_error_codes (os : StartEnv) (s : Xwayland) :
    (Xwayland.start os s).criticalErrors.length ≤ 1 ∧
    ((Xwayland.start os s).criticalErrors = [20] ↔
      os.failure = some StartFailure.dupSocketpair ∨
      os.failure = some StartFailure.dupWaylandSocket) ∧
    ((Xwayland.start os s).criticalErrors = [1] ↔
      os.failure = some StartFailure.pipe ∨ os.failure = some StartFailure.socketpair ∨
      os.failure = some StartFailure.waylandConnection) ∧
    ((Xwayland.start os s).criticalErrors = [] ↔ os.failure = none) ∧
    (os.failure = none ↔ os.succeeds = true) ∧
    (os.failure ≠ none →
      (Xwayland.start os s).1.m_xcbConnectionFd = s.m_xcbConnectionFd ∧
      (Xwayland.start os s).1.m_displayFileDescriptor = s.m_displayFileDescriptor ∧
      (Xwayland.start os s).1.m_xwaylandProcess = s.m_xwaylandProcess ∧
      (Xwayland.start os s).1.m_socketNotifier = s.m_socketNotifier ∧
      (Xwayland.start os s).1.m_dataBridge = s.m_dataBridge ∧
      (Xwayland.start os s).1.m_app = s.m_app) ∧
    (os.failure = none →
      ∃ pipeFds sx p, os.pipe = some pipeFds ∧ os.socketpair = some sx ∧
        (Xwayland.start os s).1.m_xcbConnectionFd = sx.1 ∧
        (Xwayland.start os s).1.m_displayFileDescriptor = pipeFds.1 ∧
        (Xwayland.start os s).1.m_xwaylandProcess = some p) := by
  have hsucc : os.failure = none ↔ os.succeeds = true := by
    obtain ⟨pipe, socketpair, dupSx, waylandSocket, dupWaylandSocket⟩ := os
    cases pipe <;> cases socketpair <;> by_cases h1 : dupSx < 0 <;>
      by_cases h2 : waylandSocket = -1 <;> by_cases h3 : dupWaylandSocket < 0 <;>
      simp [StartEnv.failure, StartEnv.succeeds, h1, h2, h3]
    omega
  cases hf : os.failure with
  | none =>
    obtain ⟨h0, hrest⟩ := start_of_no_failure os s hf
    rw [hf] at hsucc
    refine ⟨by simp [h0], by simp [h0], by simp [h0], by simp [h0], hsucc,
      fun h => absurd rfl h, fun _ => hrest⟩
  | some f =>
    obtain ⟨h0, hrest⟩ := start_of_failure os s f hf
    rw [hf] at hsucc
    refine ⟨by simp [h0], ?_, ?_, by simp [h0], hsucc, fun _ => hrest,
      fun h => by simp at h⟩
    · cases f <;> simp [h0, StartFailure.isDup]
    · cases f <;> simp [h0, StartFailure.isDup]

theorem start_critical_error_codes_witness :
    (Xwayland.start noDupWaylandStart liveSession).criticalErrors = [20] ∧
    (Xwayland.start noDupWaylandStart liveSession).1.m_xwaylandProcess
      = liveSession.m_xwaylandProcess ∧
    ∃ pipeFds sx p, okStart.pipe = some pipeFds ∧ okStart.socketpair = some sx ∧
      (Xwayland.start okStart Xwayland.initial).1.m_xcbConnectionFd = sx.1 ∧
      (Xwayland.start okStart Xwayland.initial).1.m_displayFileDescriptor = pipeFds.1 ∧
      (Xwayland.start okStart Xwayland.initial).1.m_xwaylandProcess = some p :=
  ⟨(start_critical_error_codes noDupWaylandStart liveSession).2.1.mpr (Or.inr (by decide)),
    ((start_critical_error_codes noDupWaylandStart liveSession).2.2.2.2.2.1
      (by decide)).2.2.1,
    (start_critical_error_codes okStart Xwayland.initial).2.2.2.2.2.2 (by decide)⟩

/-! ## Theorems: the connection and the process handle -/

/-- When the connect yields null, `continueStartupWithX` leaves the process handle and
the application's connection as they were. -/
theorem continueStartupWithX_of_no_connect (env : StartupEnv) (s : Xwayland)
    (h : env.connection = none) :
    (Xwayland.continueStartupWithX env s).1.m_xwaylandProcess = s.m_xwaylandProcess ∧
      (Xwayland.continueStartupWithX env s).1.m_app.x11Connection = s.m_app.x11Connection := by
  cases hc : s.m_app.x11Connection <;>
    simp [Xwayland.continueStartupWithX, Xwayland.createX11Connection, Run.act, Run.call,
      Run.ret, h, hc]

/-- A step that is no stale connect keeps the connection null while no process handle
exists. -/
theorem step_connection_needs_process (op : Op) (s : Xwayland)
    (hr : op.isStaleConnectAt s = false)
    (h : s.m_xwaylandProcess = none → s.m_app.x11Connection = none) :
    (Xwayland.step op s).1.m_xwaylandProcess = none →
      (Xwayland.step op s).1.m_app.x11Connection = none := by
  cases op with
  | start os =>
    intro h1
    simp only [Xwayland.step] at h1 ⊢
    cases hf : os.failure with
    | some f =>
      obtain ⟨_, _, _, hp, _, _, happ⟩ := start_of_failure os s f hf
      rw [happ]
      rw [hp] at h1
      exact h h1
    | none =>
      obtain ⟨_, _, _, p, _, _, _, _, hp⟩ := start_of_no_failure os s hf
      rw [hp] at h1
      cases h1
  | stop b =>
    intro _
    simp only [Xwayland.step]
    cases hp : s.m_xwaylandProcess with
    | none =>
      rw [stop_of_no_process b s hp]
      exact h hp
    | some p => exact stop_destroys_connection b s p hp
  | processStarted =>
    cases hp : s.m_xwaylandProcess with
    | none => simpa [Xwayland.step, Run.ret, hp] using h
    | some p =>
      by_cases hs : p.state = ProcessState.Starting <;> cases hc : p.connected <;>
        simp [Xwayland.step, Xwayland.handleXwaylandStarted, Run.act, Run.ret, hp, hs, hc]
  | processFinished exitCode =>
    cases hp : s.m_xwaylandProcess with
    | none => simpa [Xwayland.step, Run.ret, hp] using h
    | some p =>
      by_cases hs : p.state = ProcessState.Running
      · cases hc : p.connected
        · simp [Xwayland.step, Run.ret, hp, hs, hc]
        · intro _
          simp only [Xwayland.step, hp, hs, hc, if_true, Xwayland.handleXwaylandFinished]
          exact stop_destroys_connection true _ _ rfl
      · simp [Xwayland.step, Run.ret, hp, hs]
  | processError error =>
    cases hp : s.m_xwaylandProcess with
    | none => simpa [Xwayland.step, Run.ret, hp] using h
    | some p =>
      cases error <;> by_cases hs : p.state = ProcessState.Starting <;>
        cases hc : p.connected <;>
        simp [Xwayland.step, Xwayland.handleXwaylandError, Run.act, Run.ret, hp, hs, hc]
  | displayRead line env =>
    cases hf : s.futureWatchers with
    | nil => simpa [Xwayland.step, Run.ret, hf] using h
    | cons w ws =>
      simp only [Xwayland.step, hf]
      cases hc : env.connection with
      | none =>
        obtain ⟨h1, h2⟩ := continueStartupWithX_of_no_connect env
          { s with futureWatchers := ws, DISPLAY := some (readDisplay line) } hc
        rw [h1, h2]
        exact h
      | some c =>
        obtain ⟨h1, _⟩ := continueStartupWithX_of_connected env
          { s with futureWatchers := ws, DISPLAY := some (readDisplay line) } c hc
        rw [h1]
        intro hp
        have hp' : s.m_xwaylandProcess = none := hp
        simp [Op.isStaleConnectAt, hc, hp'] at hr
  | dispatchEvents connectionError queue b =>
    cases hc : s.m_app.x11Connection with
    | none => simp [Xwayland.step, Xwayland.dispatchEvents, Run.ret, hc]
    | some c =>
      by_cases herr : connectionError = 0
      · have hrun := (drainEvents_run queue (Run.ret s)).1
        simp only [Xwayland.step, Xwayland.dispatchEvents, hc, herr, ne_eq, not_true_eq_false,
          if_false, Run.act, id]
        rw [hrun]
        simpa [Run.ret] using h
      · intro _
        simp only [Xwayland.step, Xwayland.dispatchEvents, hc, herr, ne_eq, not_false_eq_true,
          if_true]
        cases hp : s.m_xwaylandProcess with
        | none =>
          rw [stop_of_no_process b s hp]
          exact h hp
        | some p => exact stop_destroys_connection b s p hp

/-- Stale connects are the only steps that set a connection while no process handle
exists: a run without them keeps the connection null while no process handle exists. -/
theorem run_connection_needs_process (ops : List Op) :
    ∀ s : Xwayland,
      Xwayland.along (fun op s => !op.isStaleConnectAt s) ops s = true →
      (s.m_xwaylandProcess = none → s.m_app.x11Connection = none) →
      (Xwayland.run ops s).1.m_xwaylandProcess = none →
        (Xwayland.run ops s).1.m_app.x11Connection = none := by
  induction ops with
  | nil => intro s _ h; simpa [Xwayland.run, Run.ret] using h
  | cons op rest ih =>
    intro s hr h
    simp only [Xwayland.along, Bool.and_eq_true, Bool.not_eq_true'] at hr
    rw [run_cons]
    exact ih (Xwayland.step op s).1 hr.2 (step_connection_needs_process op s hr.1 h)

/-- C3, as the code has it: a state without process handle and with a non-null X11
connection is reached from the initial state by steps that can all be received. A
display-number read that is pending when `stop` releases the process handle is not
cancelled; when it ends, `continueStartupWithX` makes the connect on the descriptor -1
that `stop` has left in `m_xcbConnectionFd`, the connect fails, and the object it
yields, which is in an error state and not null, is set as the application's X11
connection: `x11ConnectionChanged` and `started` are emitted in such a state, and the
run ends in one. -/
theorem connection_set_without_process :
    Xwayland.receivable overlappingSessions Xwayland.initial = true ∧
    (Xwayland.run (overlappingSessions.take 5) Xwayland.initial).1.m_xwaylandProcess.isSome
      = true ∧
    (Xwayland.run (overlappingSessions.take 5) Xwayland.initial).1.m_app.x11Connection
      = some { fd := 12, screen := { root := 42 } } ∧
    (Xwayland.run (overlappingSessions.take 7) Xwayland.initial).1.m_xwaylandProcess = none ∧
    (Xwayland.run (overlappingSessions.take 7) Xwayland.initial).1.m_app.x11Connection
      = none ∧
    (Xwayland.run (overlappingSessions.take 7) Xwayland.initial).1.m_xcbConnectionFd = -1 ∧
    (Xwayland.run (overlappingSessions.take 7) Xwayland.initial).1.futureWatchers ≠ [] ∧
    failedConnection.has_error ≠ 0 ∧
    (Xwayland.step (Op.displayRead ['1', '\n'] failedEnv)
        (Xwayland.run (overlappingSessions.take 7) Xwayland.initial).1).emitted.map
      (fun x => (x.1, x.2.m_xwaylandProcess, x.2.m_app.x11Connection))
      = [(Signal.x11ConnectionChanged, none, some failedConnection),
          (Signal.started, none, some failedConnection)] ∧
    (Xwayland.run overlappingSessions Xwayland.initial).1.m_xwaylandProcess = none ∧
    (Xwayland.run overlappingSessions Xwayland.initial).1.m_app.x11Connection
      = some failedConnection := by
  decide

end Xwl

namespace KWin

/-! ## Theorems: the geometry of the input panel -/

/-- The result of `setFrameGeometry`, by whether the geometry differs from the frame
geometry. -/
theorem setFrameGeometry_cases (geometry : QRect) (s : InputPanelV1Client) :
    (s.m_frameGeometry = geometry → s.setFrameGeometry geometry = (s, [])) ∧
    (s.m_frameGeometry ≠ geometry →
      s.setFrameGeometry geometry =
        ({ s with m_frameGeometry := geometry, m_clientGeometry := geometry },
          [PanelEffect.frameGeometryChanged geometry,
            PanelEffect.clientGeometryChanged geometry,
            PanelEffect.bufferGeometryChanged geometry, PanelEffect.setReadyForPainting,
            PanelEffect.autoRaise])) := by
  constructor <;> intro h <;> simp [InputPanelV1Client.setFrameGeometry, h]

/-- The frame geometry after `setFrameGeometry` is the geometry given. -/
theorem setFrameGeometry_frame (geometry : QRect) (s : InputPanelV1Client) :
    (s.setFrameGeometry geometry).1.m_frameGeometry = geometry := by
  by_cases h : s.m_frameGeometry = geometry <;>
    simp [InputPanelV1Client.setFrameGeometry, h]

/-- An `int` computation whose exact value is a value of type `int` gives that value. -/
theorem int32_of_fits (n : Int) (h : fitsInt32 n = true) : int32 n = n := by
  simp only [fitsInt32, Bool.and_eq_true, decide_eq_true_eq] at h
  unfold int32
  omega

/-- The truncated half of `a` is within one half of `a / 2`. -/
theorem tdiv_two_near (a : Int) : |a - 2 * a.tdiv 2| ≤ 1 := by
  rcases Int.le_total 0 a with h | h
  · rw [Int.tdiv_eq_ediv h (by decide), abs_le]
    omega
  · have hneg : a.tdiv 2 = -((-a).tdiv 2) := by rw [Int.neg_tdiv, neg_neg]
    rw [hneg, Int.tdiv_eq_ediv (by omega) (by decide), abs_le]
    omega

/-- C23, as the code has it: in mode Toplevel, with an output and a surface size that is
valid and not empty, and when the placement stays in the range of `int`, `reposition`
sets the frame geometry to the rectangle with the size of the surface whose left edge
is the left edge of the output plus the truncated half of the difference of the
widths, and whose top edge is the top edge of the output plus the difference of the
heights: its bottom edge is the bottom edge of the output, and the free space to its
left and to its right differ by at most one. Without an output, or with a surface size
that is invalid or empty, `reposition` changes nothing and emits nothing. -/
theorem reposition_toplevel (focusedField : Option Xwl.QPoint) (s : InputPanelV1Client)
    (hm : s.m_mode = Mode.Toplevel) :
    (∀ output, s.m_output = some output → s.surfaceSize.isValid = true →
      s.surfaceSize.isEmpty = false →
      repositionInRange output.geometry s.surfaceSize = true →
      (s.reposition focusedField).1.m_frameGeometry =
        centredAtBottom output.geometry s.surfaceSize ∧
      (s.reposition focusedField).1.m_frameGeometry.x1 =
        output.geometry.x1 + (output.geometry.width - s.surfaceSize.width).tdiv 2 ∧
      (s.reposition focusedField).1.m_frameGeometry.y1 =
        output.geometry.y1 + output.geometry.height - s.surfaceSize.height ∧
      (s.reposition focusedField).1.m_frameGeometry.width = s.surfaceSize.width ∧
      (s.reposition focusedField).1.m_frameGeometry.height = s.surfaceSize.height ∧
      (s.reposition focusedField).1.m_frameGeometry.y2 = output.geometry.y2 ∧
      |((s.reposition focusedField).1.m_frameGeometry.x1 - output.geometry.x1) -
        (output.geometry.x2 - (s.reposition focusedField).1.m_frameGeometry.x2)| ≤ 1) ∧
    ((s.m_output = none ∨ s.surfaceSize.isValid = false ∨ s.surfaceSize.isEmpty = true) →
      s.reposition focusedField = (s, [])) := by
  constructor
  · intro output ho hv he hr
    simp only [repositionInRange, QRect.fits, QSize.fits, fitsInt32, centredAtBottom,
      Bool.and_eq_true, decide_eq_true_eq] at hr
    have hW : output.geometry.width = output.geometry.x2 - output.geometry.x1 + 1 := by
      simp only [QRect.width, int32]
      omega
    have hH : output.geometry.height = output.geometry.y2 - output.geometry.y1 + 1 := by
      simp only [QRect.height, int32]
      omega
    have hD : int32 (output.geometry.x2 - output.geometry.x1 + 1 - s.surfaceSize.width)
        = output.geometry.x2 - output.geometry.x1 + 1 - s.surfaceSize.width := by
      simp only [int32]
      omega
    have hhalf := tdiv_two_near
      (output.geometry.x2 - output.geometry.x1 + 1 - s.surfaceSize.width)
    rw [abs_le] at hhalf
    have hgeo : (s.reposition focusedField).1.m_frameGeometry =
        centredAtBottom output.geometry s.surfaceSize := by
      simp only [InputPanelV1Client.reposition, hm, ho, hv, he, Bool.not_true, Bool.or_self,
        Bool.false_eq_true, if_false]
      rw [setFrameGeometry_frame, hW, hH, hD]
      simp only [QRect.translate, QRect.ofTopLeftSize, QRect.topLeft, centredAtBottom,
        QRect.mk.injEq, int32]
      generalize (output.geometry.x2 - output.geometry.x1 + 1 - s.surfaceSize.width).tdiv 2
        = t at hr hhalf ⊢
      refine ⟨?_, ?_, ?_, ?_⟩ <;> omega
    rw [hgeo, hW, hH]
    simp only [centredAtBottom, QRect.width, QRect.height, int32, abs_le]
    generalize (output.geometry.x2 - output.geometry.x1 + 1 - s.surfaceSize.width).tdiv 2
      = t at hr hhalf ⊢
    refine ⟨?_, ?_, ?_, ?_, ?_, ?_, ?_⟩
    all_goals first | trivial | omega
  · intro h
    cases ho : s.m_output with
    | none => simp [InputPanelV1Client.reposition, hm, ho]
    | some output =>
      rcases h with h | h | h
      · rw [ho] at h; cases h
      · simp [InputPanelV1Client.reposition, hm, ho, h]
      · simp [InputPanelV1Client.reposition, hm, ho, h]

theorem reposition_toplevel_witness :
    (widePanel.reposition none).1.m_frameGeometry
      = { x1 := 99, y1 := 780, x2 := 2021, y2 := 1079 } ∧
    InputPanelV1Client.reposition none (InputPanelV1Client.new { width := 801, height := 300 })
      = (InputPanelV1Client.new { width := 801, height := 300 }, []) :=
  ⟨((reposition_toplevel none widePanel (by decide)).1
      { geometry := { x1 := 100, y1 := 0, x2 := 2019, y2 := 1079 } }
      (by decide) (by decide) (by decide) (by decide)).1,
    (reposition_toplevel none (InputPanelV1Client.new { width := 801, height := 300 })
      (by decide)).2 (Or.inl rfl)⟩

/-- C23, as stated, fails where the placement leaves the range of `int`. For a panel of
801 by 300 on the output of 648 by 1080 whose right edge is the largest `int`, the
rectangle asked for has its right edge at 2147483724, and the frame geometry set has
its right edge at -2147483572, left of its left edge. For a panel of 2001 by 300 on
the output of 100 by 1080 at (-2147483000, 0), the left edge asked for is -2147483950,
and the frame geometry set has its left edge at 2147483346: the panel is not centred
on the output. -/
theorem reposition_toplevel_wraps_around :
    (rightmostPanel.m_mode = Mode.Toplevel ∧ rightmostPanel.surfaceSize.isValid = true ∧
      rightmostPanel.surfaceSize.isEmpty = false ∧
      centredAtBottom { x1 := 2147483000, y1 := 0, x2 := 2147483647, y2 := 1079 }
          rightmostPanel.surfaceSize
        = { x1 := 2147482924, y1 := 780, x2 := 2147483724, y2 := 1079 } ∧
      (rightmostPanel.reposition none).1.m_frameGeometry
        = { x1 := 2147482924, y1 := 780, x2 := -2147483572, y2 := 1079 }) ∧
    (leftmostPanel.m_mode = Mode.Toplevel ∧ leftmostPanel.surfaceSize.isValid = true ∧
      leftmostPanel.surfaceSize.isEmpty = false ∧
      centredAtBottom { x1 := -2147483000, y1 := 0, x2 := -2147482901, y2 := 1079 }
          leftmostPanel.surfaceSize
        = { x1 := -2147483950, y1 := 780, x2 := -2147481950, y2 := 1079 } ∧
      (leftmostPanel.reposition none).1.m_frameGeometry
        = { x1 := 2147483346, y1 := 780, x2 := -2147481950, y2 := 1079 } ∧
      (leftmostPanel.reposition none).1.m_frameGeometry.x1
        ≠ -2147483000 + ((100 : Int) - 2001).tdiv 2) := by
  decide

/-! ## Theorems: `setFrameGeometry` -/

theorem setFrameGeometry_keeps_equal (geometry : QRect) (s : InputPanelV1Client)
    (h : s.m_clientGeometry = s.m_frameGeometry) :
    (s.setFrameGeometry geometry).1.m_clientGeometry
      = (s.setFrameGeometry geometry).1.m_frameGeometry := by
  by_cases hg : s.m_frameGeometry = geometry <;>
    simp [InputPanelV1Client.setFrameGeometry, hg, h]

theorem reposition_keeps_equal (focusedField : Option Xwl.QPoint) (s : InputPanelV1Client)
    (h : s.m_clientGeometry = s.m_frameGeometry) :
    (s.reposition focusedField).1.m_clientGeometry
      = (s.reposition focusedField).1.m_frameGeometry := by
  unfold InputPanelV1Client.reposition
  cases s.m_mode with
  | Toplevel =>
    cases s.m_output with
    | none => exact h
    | some output =>
      simp only []
      split
      · exact h
      · exact setFrameGeometry_keeps_equal _ s h
  | Overlay =>
    cases focusedField with
    | none => exact h
    | some pos => exact setFrameGeometry_keeps_equal _ s h

/-- Every step of the panel keeps the client geometry equal to the frame geometry. -/
theorem step_keeps_equal (op : PanelOp) (s : InputPanelV1Client)
    (h : s.m_clientGeometry = s.m_frameGeometry) :
    (s.step op).1.m_clientGeometry = (s.step op).1.m_frameGeometry := by
  cases op with
  | showOverlayPanel found focusedField =>
    exact reposition_keeps_equal focusedField _ h
  | showTopLevel found focusedField =>
    exact reposition_keeps_equal focusedField _ h
  | setFrameGeometry geometry => exact setFrameGeometry_keeps_equal geometry s h
  | hideClient hide focusedField =>
    cases hide with
    | true => exact h
    | false => exact reposition_keeps_equal focusedField _ h
  | surfaceSizeChanged size focusedField =>
    exact reposition_keeps_equal focusedField _ h
  | outputChanged geometry focusedField =>
    simp only [InputPanelV1Client.step]
    cases s.m_output with
    | none => exact h
    | some output => exact reposition_keeps_equal focusedField _ h
  | outputDestroyed => exact h

theorem after_keeps_equal (ops : List PanelOp) :
    ∀ s : InputPanelV1Client, s.m_clientGeometry = s.m_frameGeometry →
      (InputPanelV1Client.after ops s).m_clientGeometry
        = (InputPanelV1Client.after ops s).m_frameGeometry := by
  induction ops with
  | nil => intro s h; exact h
  | cons op rest ih =>
    intro s h
    exact ih _ (step_keeps_equal op s h)

/-- C24: for every panel reached from its construction and every rectangle g, after
`setFrameGeometry(g)` the frame geometry and the client geometry are g; the signals
`frameGeometryChanged`, `clientGeometryChanged` and `bufferGeometryChanged` are emitted,
once each and with g, if g differs from the frame geometry before the call, and none
of them is emitted otherwise; a second call with the same g changes nothing and has no
effect. -/
theorem setFrameGeometry_sets_both (size : QSize) (ops : List PanelOp) (g : QRect)
    (s : InputPanelV1Client)
    (hs : s = InputPanelV1Client.after ops (InputPanelV1Client.new size)) :
    (s.setFrameGeometry g).1.m_frameGeometry = g ∧
    (s.setFrameGeometry g).1.m_clientGeometry = g ∧
    (g ≠ s.m_frameGeometry →
      (s.setFrameGeometry g).2.filter PanelEffect.isGeometrySignal =
        [PanelEffect.frameGeometryChanged g, PanelEffect.clientGeometryChanged g,
          PanelEffect.bufferGeometryChanged g]) ∧
    (g = s.m_frameGeometry → s.setFrameGeometry g = (s, [])) ∧
    (s.setFrameGeometry g).1.setFrameGeometry g = ((s.setFrameGeometry g).1, []) := by
  have hinv : s.m_clientGeometry = s.m_frameGeometry := by
    rw [hs]
    exact after_keeps_equal ops _ rfl
  have hframe := setFrameGeometry_frame g s
  refine ⟨hframe, ?_, ?_, ?_, ?_⟩
  · rw [setFrameGeometry_keeps_equal g s hinv, hframe]
  · intro hne
    rw [(setFrameGeometry_cases g s).2 (Ne.symm hne)]
    simp [PanelEffect.isGeometrySignal]
  · intro heq
    exact (setFrameGeometry_cases g s).1 heq.symm
  · exact (setFrameGeometry_cases g _).1 hframe

theorem setFrameGeometry_sets_both_witness :
    (shownPanel.setFrameGeometry { x1 := 0, y1 := 0, x2 := 9, y2 := 9 }).1.m_frameGeometry
      = { x1 := 0, y1 := 0, x2 := 9, y2 := 9 } ∧
    (shownPanel.setFrameGeometry { x1 := 0, y1 := 0, x2 := 9, y2 := 9 }).1.m_clientGeometry
      = { x1 := 0, y1 := 0, x2 := 9, y2 := 9 } :=
  ⟨(setFrameGeometry_sets_both { width := 801, height := 300 }
      [PanelOp.showTopLevel
        (some { geometry := { x1 := 100, y1 := 0, x2 := 2019, y2 := 1079 } }) none]
      { x1 := 0, y1 := 0, x2 := 9, y2 := 9 } shownPanel rfl).1,
    (setFrameGeometry_sets_both { width := 801, height := 300 }
      [PanelOp.showTopLevel
        (some { geometry := { x1 := 100, y1 := 0, x2 := 2019, y2 := 1079 } }) none]
      { x1 := 0, y1 := 0, x2 := 9, y2 := 9 } shownPanel rfl).2.1⟩

end KWin
